import Mathlib

/-!
# Verification of the SAS7BDAT reader (kshedden/datareader)

A shallow embedding, in Lean 4, of the SAS7BDAT reading pipeline of the
`datareader` Go package, together with theorems settling a list of claims
about its behaviour.

Modelling conventions, used uniformly below:

* Go `int` is modelled as `Int` (64-bit overflow is not modelled; none of the
  quantities involved can approach `2^63` on inputs the reader can hold in
  memory).
* Go `[]byte` and Go `string` are both modelled as `List UInt8` (a Go string
  is an immutable byte sequence; the reader compares and slices them
  byte-wise).
* A fallible Go function returning `error` is modelled with `Except ReadError`
  (or `Option ReadError` when there is no other payload).  A Go runtime panic
  (index out of range, slice bounds out of range, nil function call, explicit
  `panic(...)`) does not return at all in Go; it is modelled as the
  distinguished error constructor `ReadError.goPanic` so that it can never be
  confused with an `error` value actually returned by the code.
* `io.EOF` is the distinguished constructor `ReadError.eof`.
* Go maps `map[uint64]string` / `map[string]uint64` are modelled as
  association lists; the reader only ever inserts fresh keys, so an
  association list with `List.lookup` is an exact model and its `length` is
  the map's size.  Go map indexing returns the zero value (`""`, `0`) for a
  missing key, hence lookups below use `.getD`.
* Reading a freshly allocated Go byte slice beyond its length but within its
  capacity yields zero bytes (`make` zero-initialises the backing array and
  the decompressors only ever append, so positions past the current length
  have never been written).  This matters for `rdc_decompress`, which slices
  its output buffer beyond its length; the model reads `0` there and raises a
  modelled panic when the slice could exceed the capacity that `make`
  guaranteed.
* Loops whose iteration count is data-dependent are written with an explicit
  `fuel : Nat` argument, decremented once per iteration, so that every
  definition is structurally recursive and computable by `decide`/`rfl`.
  Each such loop makes progress through a finite structure (it consumes at
  least one input byte, or advances the file position); the wrapper functions
  supply fuel that is an upper bound for the possible number of iterations,
  so the "out of fuel" branches are unreachable artifacts of the embedding.
-/

namespace Datareader

instance {ε α : Type} [DecidableEq ε] [DecidableEq α] : DecidableEq (Except ε α) := fun x y =>
  match x, y with
  | .ok a, .ok b =>
    if h : a = b then isTrue (by rw [h]) else isFalse (by simp [h])
  | .error e, .error f =>
    if h : e = f then isTrue (by rw [h]) else isFalse (by simp [h])
  | .ok _, .error _ => isFalse (by simp)
  | .error _, .ok _ => isFalse (by simp)

/-- Go strings and byte slices, as byte lists. -/
abbrev GoStr := List UInt8

/-- Errors surfaced by the embedded reader.  `goError` models an `error`
value built with `fmt.Errorf`, `eof` models `io.EOF`, and `goPanic` models a
Go runtime panic (which in Go does not return to the caller at all). -/
inductive ReadError where
  | eof : ReadError
  | goError : String → ReadError
  | goPanic : String → ReadError
deriving Repr, DecidableEq

/-- `min` as defined in the source (`func min(x, y int) int`). -/
def goMin (x y : Int) : Int := if x < y then x else y

/-! ## RLE decompression (`rle_decompress`)

Direct translation of `rle_decompress`.  The Go loop consumes `inbuff` and
appends to `result`; each iteration consumes at least the control byte, so
`inbuff.length` is an upper bound on the iteration count and is the fuel
supplied by `rle_decompress`.  Operand reads past the end of the input are Go
panics (the final reslice `inbuff = inbuff[nbytes:]` panics whenever `nbytes`
exceeds the remaining length) and are modelled as `goPanic`.  The `os.Stderr`
warnings in the source have no effect on the returned value and are not
modelled. -/

/-- One iteration of the `rle_decompress` loop, for a control byte `b`
followed by the remaining input `rest`: returns the extended output and the
remaining input. -/
def rleStep (result : List UInt8) (b : UInt8) (rest : List UInt8) :
    Except ReadError (List UInt8 × List UInt8) :=
  let control_byte : UInt8 := b &&& 0xF0
  let end_of_first_byte : Nat := (b &&& 0x0F).toNat
  if control_byte = 0x00 then
    match rest with
    | [] => .error (.goPanic "index out of range")
    | n0 :: rest1 =>
      let nbytes := n0.toNat + 64
      if nbytes ≤ rest1.length then
        .ok (result ++ rest1.take nbytes, rest1.drop nbytes)
      else .error (.goPanic "slice bounds out of range")
  else if control_byte = 0x40 then
    match rest with
    | n0 :: x :: rest1 =>
      let nbytes := end_of_first_byte * 16 + n0.toNat
      .ok (result ++ List.replicate nbytes x, rest1)
    | _ => .error (.goPanic "index out of range")
  else if control_byte = 0x60 then
    match rest with
    | n0 :: rest1 =>
      let nbytes := end_of_first_byte * 256 + n0.toNat + 17
      .ok (result ++ List.replicate nbytes 0x20, rest1)
    | [] => .error (.goPanic "index out of range")
  else if control_byte = 0x70 then
    match rest with
    | n0 :: rest1 =>
      let nbytes := end_of_first_byte * 256 + n0.toNat + 17
      .ok (result ++ List.replicate nbytes 0x00, rest1)
    | [] => .error (.goPanic "index out of range")
  else if control_byte = 0x80 then
    let nbytes := end_of_first_byte + 1
    if nbytes ≤ rest.length then
      .ok (result ++ rest.take nbytes, rest.drop nbytes)
    else .error (.goPanic "slice bounds out of range")
  else if control_byte = 0x90 then
    let nbytes := end_of_first_byte + 17
    if nbytes ≤ rest.length then
      .ok (result ++ rest.take nbytes, rest.drop nbytes)
    else .error (.goPanic "slice bounds out of range")
  else if control_byte = 0xA0 then
    let nbytes := end_of_first_byte + 33
    if nbytes ≤ rest.length then
      .ok (result ++ rest.take nbytes, rest.drop nbytes)
    else .error (.goPanic "slice bounds out of range")
  else if control_byte = 0xB0 then
    let nbytes := end_of_first_byte + 49
    if nbytes ≤ rest.length then
      .ok (result ++ rest.take nbytes, rest.drop nbytes)
    else .error (.goPanic "slice bounds out of range")
  else if control_byte = 0xC0 then
    match rest with
    | x :: rest1 =>
      let nbytes := end_of_first_byte + 3
      .ok (result ++ List.replicate nbytes x, rest1)
    | [] => .error (.goPanic "index out of range")
  else if control_byte = 0xD0 then
    .ok (result ++ List.replicate (end_of_first_byte + 2) 0x40, rest)
  else if control_byte = 0xE0 then
    .ok (result ++ List.replicate (end_of_first_byte + 2) 0x20, rest)
  else if control_byte = 0xF0 then
    .ok (result ++ List.replicate (end_of_first_byte + 2) 0x00, rest)
  else
    .error (.goError "unknown control byte")

def rleLoop : Nat → List UInt8 → List UInt8 → Except ReadError (List UInt8)
  | _, result, [] => .ok result
  | 0, _, _ :: _ => .error (.goPanic "out of fuel (unreachable)")
  | fuel + 1, result, b :: rest =>
    match rleStep result b rest with
    | .error e => .error e
    | .ok (result, inbuff) => rleLoop fuel result inbuff

/-- `rle_decompress(result_length, inbuff)`.  The source compares the length
of the result with `result_length` only to print a warning to stderr; the
returned value does not depend on it. -/
def rle_decompress (result_length : Int) (inbuff : List UInt8) :
    Except ReadError (List UInt8) :=
  let _ := result_length
  rleLoop inbuff.length [] inbuff

/-! ## RDC decompression (`rdc_decompress`)

Direct translation of `rdc_decompress`.  The `uint16` quantities
(`ctrl_bits`, `ctrl_mask`, `ofs`, `cnt`) are modelled as `Nat`: they are
built from input bytes in ways that cannot exceed `2^16` (the largest
intermediate is `15 + 255*16 + 19`), and `ctrl_mask` only ever holds `0x8000`
shifted right.

The back-reference cases (`cmd == 2` and `cmd ∈ [3,15]`) execute

    tmp := outbuff[len(outbuff)-int(ofs) : len(outbuff)-int(ofs)+int(cnt)]
    outbuff = append(outbuff, tmp...)

In Go, the upper bound of a slice expression on a slice is checked against
the *capacity*, so when `cnt > ofs` the expression reads positions at and
beyond `len(outbuff)`: those positions have never been written (the function
only appends), so they hold the zero bytes that `make` put in the backing
array, and `append`'s copy has memmove semantics (the source values are
those present before the copy).  `rdcPattern` models exactly that: positions
`≥ outbuff.length` read as `0`.  A read beyond `max result_length
outbuff.length` is modelled as a panic: `make([]byte, 0, result_length)`
guarantees only `result_length` capacity (the runtime may round the
allocation up, in which case Go would read garbage instead of panicking;
nothing below depends on that region). -/

def rdcPattern (result_length : Int) (outbuff : List UInt8) (ofs cnt : Nat) :
    Option (List UInt8) :=
  if ofs > outbuff.length then
    none  -- Go: slice bounds out of range (negative low index)
  else if outbuff.length - ofs + cnt > max result_length.toNat outbuff.length then
    none  -- Go: slice bounds out of range (upper index beyond capacity)
  else
    some ((List.range cnt).map (fun k => outbuff.getD (outbuff.length - ofs + k) 0))

/-- The command dispatch of the `rdc_decompress` loop (the `switch` on
`cmd = (inbuff[inbuff_pos] >> 4) & 0x0F`), entered when the current control
bit is 1.  Returns the updated `(ctrl_bits, ctrl_mask, outbuff, inbuff_pos)`. -/
def rdcCommand (result_length : Int) (inbuff : List UInt8)
    (ctrl_bits' ctrl_mask' : Nat) (outbuff : List UInt8) (pos : Nat) :
    Except ReadError (Nat × Nat × List UInt8 × Nat) :=
  if pos < inbuff.length then
    let b := inbuff.getD pos 0
    let cmd := (b.toNat >>> 4) &&& 0x0F
    let cnt := (b &&& 0x0F).toNat
    let pos1 := pos + 1
    if cmd = 0 then  /- short rle -/
      if pos1 < inbuff.length then
        .ok (ctrl_bits', ctrl_mask',
          outbuff ++ List.replicate (cnt + 3) (inbuff.getD pos1 0), pos1 + 1)
      else .error (.goPanic "index out of range")
    else if cmd = 1 then  /- long rle -/
      if pos1 + 1 < inbuff.length then
        let cnt1 := cnt + (inbuff.getD pos1 0).toNat * 16 + 19
        .ok (ctrl_bits', ctrl_mask',
          outbuff ++ List.replicate cnt1 (inbuff.getD (pos1 + 1) 0), pos1 + 2)
      else .error (.goPanic "index out of range")
    else if cmd = 2 then  /- long pattern -/
      if pos1 + 1 < inbuff.length then
        let ofs := cnt + 3 + (inbuff.getD pos1 0).toNat * 16
        let cnt1 := (inbuff.getD (pos1 + 1) 0).toNat + 16
        match rdcPattern result_length outbuff ofs cnt1 with
        | none => .error (.goPanic "slice bounds out of range")
        | some tmp => .ok (ctrl_bits', ctrl_mask', outbuff ++ tmp, pos1 + 2)
      else .error (.goPanic "index out of range")
    else if 3 ≤ cmd ∧ cmd ≤ 15 then  /- short pattern -/
      if pos1 < inbuff.length then
        let ofs := cnt + 3 + (inbuff.getD pos1 0).toNat * 16
        match rdcPattern result_length outbuff ofs cmd with
        | none => .error (.goPanic "slice bounds out of range")
        | some tmp => .ok (ctrl_bits', ctrl_mask', outbuff ++ tmp, pos1 + 1)
      else .error (.goPanic "index out of range")
    else
      .error (.goError "unknown RDC command")
  else .error (.goPanic "index out of range")

/-- One iteration of the `rdc_decompress` loop: shift (and possibly refill)
the control mask, then handle one token (a literal byte or one command).
Returns the updated `(ctrl_bits, ctrl_mask, outbuff, inbuff_pos)`. -/
def rdcStep (result_length : Int) (inbuff : List UInt8)
    (ctrl_bits ctrl_mask : Nat) (outbuff : List UInt8) (inbuff_pos : Nat) :
    Except ReadError (Nat × Nat × List UInt8 × Nat) :=
  -- ctrl_mask = ctrl_mask >> 1; refill the control word when it is exhausted
  let ctrl_mask1 := ctrl_mask / 2
  if ctrl_mask1 = 0 ∧ inbuff_pos + 1 ≥ inbuff.length then
    .error (.goPanic "index out of range")  -- refill needs two bytes
  else
    let ctrl_bits' := if ctrl_mask1 = 0 then
        (inbuff.getD inbuff_pos 0).toNat * 256 +
          (inbuff.getD (inbuff_pos + 1) 0).toNat
      else ctrl_bits
    let ctrl_mask' := if ctrl_mask1 = 0 then 0x8000 else ctrl_mask1
    let pos := if ctrl_mask1 = 0 then inbuff_pos + 2 else inbuff_pos
    if ctrl_bits' &&& ctrl_mask' = 0 then
      -- literal byte
      if pos < inbuff.length then
        .ok (ctrl_bits', ctrl_mask', outbuff ++ [inbuff.getD pos 0], pos + 1)
      else .error (.goPanic "index out of range")
    else
      rdcCommand result_length inbuff ctrl_bits' ctrl_mask' outbuff pos

/-- The loop of `rdc_decompress`.  One fuel unit is spent per iteration;
every iteration advances `inbuff_pos` by at least one, so `inbuff.length`
fuel (what `rdc_decompress` supplies) is always enough. -/
def rdcLoop (result_length : Int) (inbuff : List UInt8) :
    Nat → Nat → Nat → List UInt8 → Nat → Except ReadError (List UInt8)
  | fuel, ctrl_bits, ctrl_mask, outbuff, inbuff_pos =>
    if inbuff_pos < inbuff.length then
      match fuel with
      | 0 => .error (.goPanic "out of fuel (unreachable)")
      | fuel + 1 =>
        match rdcStep result_length inbuff ctrl_bits ctrl_mask outbuff inbuff_pos with
        | .error e => .error e
        | .ok (ctrl_bits, ctrl_mask, outbuff, inbuff_pos) =>
          rdcLoop result_length inbuff fuel ctrl_bits ctrl_mask outbuff inbuff_pos
    else .ok outbuff

/-- `rdc_decompress(result_length, inbuff)`.  As for RLE, the final length
check only prints a warning and does not affect the returned value.
`make([]byte, 0, result_length)` panics when `result_length` is negative. -/
def rdc_decompress (result_length : Int) (inbuff : List UInt8) :
    Except ReadError (List UInt8) :=
  if result_length < 0 then .error (.goPanic "makeslice: cap out of range")
  else rdcLoop result_length inbuff inbuff.length 0 0 [] 0

/-! ## Data model: the `SAS7BDAT` reader state

Translation of the `SAS7BDAT` struct and its satellite types.  Fields of the
construction phase that no claim can reach (creation dates, platform and
release strings, the text-encoding name) are carried verbatim only where the
data-reading phase can touch them and omitted otherwise; everything reachable
from `Read` is present. -/

/-- `binary.ByteOrder`: the two instances the reader ever assigns. -/
inductive ByteOrderT where
  | littleEndian : ByteOrderT
  | bigEndian : ByteOrderT
deriving Repr, DecidableEq

/-- `type ColumnTypeT uint16`. -/
abbrev ColumnTypeT := Nat

def SASNumericType : ColumnTypeT := 0
def SASStringType : ColumnTypeT := 1

/-- Subheader-kind indices (`rowSizeIndex = iota` …). -/
def rowSizeIndex : Int := 0
def columnSizeIndex : Int := 1
def subheaderCountsIndex : Int := 2
def columnTextIndex : Int := 3
def columnNameIndex : Int := 4
def columnAttributesIndex : Int := 5
def formatAndLabelIndex : Int := 6
def columnListIndex : Int := 7
def dataSubheaderIndex : Int := 8

/-- `"SASYZCRL"` as bytes. -/
def rle_compression : GoStr := [0x53, 0x41, 0x53, 0x59, 0x5A, 0x43, 0x52, 0x4C]
/-- `"SASYZCR2"` as bytes. -/
def rdc_compression : GoStr := [0x53, 0x41, 0x53, 0x59, 0x5A, 0x43, 0x52, 0x32]

def compression_literals : List GoStr := [rle_compression, rdc_compression]

def page_meta_type : Int := 0
def page_data_type : Int := 256
def page_amd_type : Int := 1024
def subheader_pointers_offset : Int := 8
def truncated_subheader_id : Int := 1
def compressed_subheader_id : Int := 4
def compressed_subheader_type : Int := 1

/-- `type sasProperties struct`. -/
structure SASProperties where
  intLength : Int
  pageBitOffset : Int
  subheaderPointerLength : Int
  headerLength : Int
  pageLength : Int
  pageCount : Int
  rowLength : Int
  colCountP1 : Int
  colCountP2 : Int
  mixPageRowCount : Int
  lcs : Int
  lcp : Int
  creatorProc : GoStr
  columnCount : Int
deriving Repr, DecidableEq

/-- `type column struct`. -/
structure Column where
  colId : Int
  name : GoStr
  label : GoStr
  format : GoStr
  ctype : ColumnTypeT
  length : Int
deriving Repr, DecidableEq

/-- `type subheaderPointer struct`. -/
structure SubheaderPointer where
  offset : Int
  length : Int
  compression : Int
  ptype : Int
deriving Repr, DecidableEq

/-- The `io.ReadSeeker` underlying byte source: its contents and the current
position.  `Read` yields `min(len(buf), remaining)` bytes from the position
(a `bytes.Reader` / `os.File` at end of data yields 0 bytes, which the
callers translate to `io.EOF` where Go would see one). -/
structure GoFile where
  data : List UInt8
  pos : Int
deriving Repr, DecidableEq

/-- `file.Read(buf)` for a buffer of length `bufLen`: returns the new file
state and the bytes read. -/
def fileRead (f : GoFile) (bufLen : Nat) : GoFile × List UInt8 :=
  let chunk := (f.data.drop f.pos.toNat).take bufLen
  ({ f with pos := f.pos + chunk.length }, chunk)

/-- `file.Seek(offset, 0)`. -/
def fileSeek (f : GoFile) (offset : Int) : Except ReadError GoFile :=
  if offset < 0 then .error (.goError "Seek: negative position")
  else .ok { f with pos := offset }

/-- The `SAS7BDAT` struct.  A `TextDecoder` result of `none` models a decoder
error, which the source converts into a panic. -/
structure SAS7BDAT where
  ColumnFormats : List GoStr
  TrimStrings : Bool
  ConvertDates : Bool
  FactorizeStrings : Bool
  NoAlignCorrection : Bool
  U64 : Bool
  ByteOrder : ByteOrderT
  Compression : GoStr
  TextDecoder : Option (List UInt8 → Option (List UInt8))
  rowCount : Int
  columnTypes : List ColumnTypeT
  columnLabels : List GoStr
  columnNames : List GoStr
  buf : List UInt8
  file : GoFile
  cachedPage : Option (List UInt8)
  currentPageType : Int
  currentPageBlockCount : Int
  currentPageSubheadersCount : Int
  currentRowInFileIndex : Int
  currentRowOnPageIndex : Int
  currentPageDataSubheaderPointers : List SubheaderPointer
  stringchunk : List (List Nat)
  bytechunk : List (List UInt8)
  currentRowInChunkIndex : Int
  columnNamesStrings : List GoStr
  columnDataOffsets : List Int
  columnDataLengths : List Int
  columns : List Column
  properties : SASProperties
  stringPool : List (Nat × GoStr)
  stringPoolR : List (GoStr × Nat)

/-- `StringFactorMap` returns the id-to-string pool. -/
def StringFactorMap (sas : SAS7BDAT) : List (Nat × GoStr) :=
  sas.stringPool

/-! ## Primitive reads -/

/-- Go slice indexing with an `int` index: `none` models the runtime panic
for a negative or too-large index. -/
def goIdx {α : Type} (l : List α) (i : Int) : Option α :=
  if i < 0 then none else l.get? i.toNat

/-- Go string/slice slicing `s[a:b]`: `none` models the bounds panic. -/
def goSlice (s : List UInt8) (a b : Int) : Option (List UInt8) :=
  if 0 ≤ a ∧ a ≤ b ∧ b ≤ (s.length : Int) then
    some ((s.drop a.toNat).take (b - a).toNat)
  else none

/-- Overwrite `l[start : start + src.length]` with `src` (the effect of a Go
`copy` into that slice of `l`; callers establish the bounds first). -/
def listSetRange (l : List UInt8) (start : Nat) (src : List UInt8) : List UInt8 :=
  l.take start ++ src ++ l.drop (start + src.length)

/-- `bytes.TrimRight(xs, cutset)`. -/
def goTrimRight (xs : List UInt8) (cutset : List UInt8) : List UInt8 :=
  (xs.reverse.dropWhile (fun b => b ∈ cutset)).reverse

/-- `strings.Trim(xs, cutset)`. -/
def goTrim (xs : List UInt8) (cutset : List UInt8) : List UInt8 :=
  goTrimRight (xs.dropWhile (fun b => b ∈ cutset)) cutset

/-- Go integer division truncates toward zero. -/
def goDiv (x y : Int) : Int := Int.tdiv x y

/-- Go `%` truncates toward zero (sign of the dividend). -/
def goMod (x y : Int) : Int := Int.tmod x y

/-- Little-endian byte assembly (first byte least significant). -/
def bytesToNatLE (bs : List UInt8) : Nat :=
  bs.foldr (fun b acc => acc * 256 + b.toNat) 0

/-- Big-endian byte assembly (first byte most significant). -/
def bytesToNatBE (bs : List UInt8) : Nat :=
  bs.foldl (fun acc b => acc * 256 + b.toNat) 0

def bytesToNat (bo : ByteOrderT) (bs : List UInt8) : Nat :=
  match bo with
  | .littleEndian => bytesToNatLE bs
  | .bigEndian => bytesToNatBE bs

/-- Two's-complement reinterpretation of a `w`-byte unsigned value, as done
by `binary.Read` into `int8/int16/int32/int64`. -/
def twosComplement (n : Nat) (w : Nat) : Int :=
  if n < 2 ^ (8 * w - 1) then (n : Int) else (n : Int) - 2 ^ (8 * w)

/-- `ensureBufSize`: the scratch buffer is only ever allocated with
`make([]byte, 2*m)`, so its length and capacity coincide and the capacity
test is a length test. -/
def ensureBufSize (sas : SAS7BDAT) (m : Int) : SAS7BDAT :=
  if (sas.buf.length : Int) < m then
    { sas with buf := List.replicate (2 * m).toNat 0 }
  else sas

/-- `readBytes(offset, length)`: fill `buf[0:length]` from the cached page,
or from the file when no page is cached.  A `Seek` failure is `panic(err)` in
the source. -/
def readBytes (sas : SAS7BDAT) (offset length : Int) :
    SAS7BDAT × Option ReadError :=
  let sas := ensureBufSize sas length
  match sas.cachedPage with
  | none =>
    if offset < 0 then (sas, some (.goPanic "Seek failed"))
    else
      let f := { sas.file with pos := offset }
      if length < 0 then
        ({ sas with file := f }, some (.goPanic "slice bounds out of range"))
      else
        let (f', chunk) := fileRead f length.toNat
        let sas := { sas with file := f',
                              buf := chunk ++ sas.buf.drop chunk.length }
        if chunk.length = 0 ∧ 0 < length then (sas, some .eof)
        else if (chunk.length : Int) < length then
          (sas, some (.goError "Unable to read bytes from file position"))
        else (sas, none)
  | some page =>
    if offset + length > (page.length : Int) then
      (sas, some (.goError "The cached page is too small."))
    else
      match goSlice page offset (offset + length) with
      | none => (sas, some (.goPanic "slice bounds out of range"))
      | some seg =>
        ({ sas with buf := seg ++ sas.buf.drop seg.length }, none)

/-- `readIntFromBuffer(buf, width)`: widths 1, 2, 4, 8 give a sign-extended
integer per the file's byte order; other non-negative widths give the
"invalid integer width" error (`bytes.NewReader(buf[0:width])` panics first
when `width` is negative or exceeds the buffer). -/
def readIntFromBuffer (sas : SAS7BDAT) (buf : List UInt8) (width : Int) :
    Except ReadError Int :=
  if width < 0 ∨ (buf.length : Int) < width then
    .error (.goPanic "slice bounds out of range")
  else if width = 1 ∨ width = 2 ∨ width = 4 ∨ width = 8 then
    .ok (twosComplement (bytesToNat sas.ByteOrder (buf.take width.toNat)) width.toNat)
  else .error (.goError "invalid integer width")

/-- `readInt(offset, width)`. -/
def readInt (sas : SAS7BDAT) (offset width : Int) :
    SAS7BDAT × Except ReadError Int :=
  match readBytes sas offset width with
  | (sas, some e) => (sas, .error e)
  | (sas, none) =>
    match readIntFromBuffer sas (sas.buf.take width.toNat) width with
    | .error e => (sas, .error e)
    | .ok x => (sas, .ok x)

/-! ## Subheader dispatch -/

/-- `subheader_signature_to_index`, keyed on the raw signature bytes. -/
def subheader_signature_to_index : List (GoStr × Int) :=
  [ ([0xF7, 0xF7, 0xF7, 0xF7], rowSizeIndex),
    ([0x00, 0x00, 0x00, 0x00, 0xF7, 0xF7, 0xF7, 0xF7], rowSizeIndex),
    ([0xF7, 0xF7, 0xF7, 0xF7, 0x00, 0x00, 0x00, 0x00], rowSizeIndex),
    ([0xF7, 0xF7, 0xF7, 0xF7, 0xFF, 0xFF, 0xFB, 0xFE], rowSizeIndex),
    ([0xF6, 0xF6, 0xF6, 0xF6], columnSizeIndex),
    ([0x00, 0x00, 0x00, 0x00, 0xF6, 0xF6, 0xF6, 0xF6], columnSizeIndex),
    ([0xF6, 0xF6, 0xF6, 0xF6, 0x00, 0x00, 0x00, 0x00], columnSizeIndex),
    ([0xF6, 0xF6, 0xF6, 0xF6, 0xFF, 0xFF, 0xFB, 0xFE], columnSizeIndex),
    ([0x00, 0xFC, 0xFF, 0xFF], subheaderCountsIndex),
    ([0xFF, 0xFF, 0xFC, 0x00], subheaderCountsIndex),
    ([0x00, 0xFC, 0xFF, 0xFF, 0xFF, 0xFF, 0xFF, 0xFF], subheaderCountsIndex),
    ([0xFF, 0xFF, 0xFF, 0xFF, 0xFF, 0xFF, 0xFC, 0x00], subheaderCountsIndex),
    ([0xFD, 0xFF, 0xFF, 0xFF], columnTextIndex),
    ([0xFF, 0xFF, 0xFF, 0xFD], columnTextIndex),
    ([0xFD, 0xFF, 0xFF, 0xFF, 0xFF, 0xFF, 0xFF, 0xFF], columnTextIndex),
    ([0xFF, 0xFF, 0xFF, 0xFF, 0xFF, 0xFF, 0xFF, 0xFD], columnTextIndex),
    ([0xFF, 0xFF, 0xFF, 0xFF], columnNameIndex),
    ([0xFF, 0xFF, 0xFF, 0xFF, 0xFF, 0xFF, 0xFF, 0xFF], columnNameIndex),
    ([0xFC, 0xFF, 0xFF, 0xFF], columnAttributesIndex),
    ([0xFF, 0xFF, 0xFF, 0xFC], columnAttributesIndex),
    ([0xFC, 0xFF, 0xFF, 0xFF, 0xFF, 0xFF, 0xFF, 0xFF], columnAttributesIndex),
    ([0xFF, 0xFF, 0xFF, 0xFF, 0xFF, 0xFF, 0xFF, 0xFC], columnAttributesIndex),
    ([0xFE, 0xFB, 0xFF, 0xFF], formatAndLabelIndex),
    ([0xFF, 0xFF, 0xFB, 0xFE], formatAndLabelIndex),
    ([0xFE, 0xFB, 0xFF, 0xFF, 0xFF, 0xFF, 0xFF, 0xFF], formatAndLabelIndex),
    ([0xFF, 0xFF, 0xFF, 0xFF, 0xFF, 0xFF, 0xFB, 0xFE], formatAndLabelIndex),
    ([0xFE, 0xFF, 0xFF, 0xFF], columnListIndex),
    ([0xFF, 0xFF, 0xFF, 0xFE], columnListIndex),
    ([0xFE, 0xFF, 0xFF, 0xFF, 0xFF, 0xFF, 0xFF, 0xFF], columnListIndex),
    ([0xFF, 0xFF, 0xFF, 0xFF, 0xFF, 0xFF, 0xFF, 0xFE], columnListIndex) ]

/-- `readSubheaderSignature(offset)`. -/
def readSubheaderSignature (sas : SAS7BDAT) (offset : Int) :
    SAS7BDAT × Except ReadError GoStr :=
  let length := sas.properties.intLength
  match readBytes sas offset length with
  | (sas, some e) => (sas, .error e)
  | (sas, none) => (sas, .ok (sas.buf.take length.toNat))

/-- `getSubheaderIndex(signature, compression, ptype)`. -/
def getSubheaderIndex (sas : SAS7BDAT) (signature : GoStr)
    (compression ptype : Int) : Except ReadError Int :=
  match subheader_signature_to_index.lookup signature with
  | some index => .ok index
  | none =>
    let f := compression = compressed_subheader_id ∨ compression = 0
    if sas.Compression ≠ [] ∧ f ∧ ptype = compressed_subheader_type then
      .ok dataSubheaderIndex
    else .error (.goError "unknown subheader signature")

/-- `processSubheaderPointers(offset, subheaderPointerIndex)`. -/
def processSubheaderPointers (sas : SAS7BDAT)
    (offset subheaderPointerIndex : Int) :
    SAS7BDAT × Except ReadError SubheaderPointer :=
  let length := sas.properties.intLength
  let subheaderPointerLength := sas.properties.subheaderPointerLength
  let totalOffset := offset + subheaderPointerLength * subheaderPointerIndex
  match readInt sas totalOffset length with
  | (sas, .error _) => (sas, .error (.goError "Unable to read subheader offset value."))
  | (sas, .ok subheaderOffset) =>
    let totalOffset := totalOffset + length
    match readInt sas totalOffset length with
    | (sas, .error _) => (sas, .error (.goError "Unable to read subheader length value."))
    | (sas, .ok subheaderLength) =>
      let totalOffset := totalOffset + length
      match readInt sas totalOffset 1 with
      | (sas, .error _) => (sas, .error (.goError "Unable to read subheader compression value."))
      | (sas, .ok subheaderCompression) =>
        let totalOffset := totalOffset + 1
        match readInt sas totalOffset 1 with
        | (sas, .error _) => (sas, .error (.goError "Unable to read subheader type value."))
        | (sas, .ok subheaderType) =>
          (sas, .ok ⟨subheaderOffset, subheaderLength, subheaderCompression, subheaderType⟩)

/-! ## Per-kind subheader processors -/

/-- `processSubheaderCounts`: a no-op. -/
def processSubheaderCounts (sas : SAS7BDAT) (offset length : Int) :
    SAS7BDAT × Option ReadError :=
  let _ := offset
  let _ := length
  (sas, none)

/-- `processRowSizeSubheader(offset, length)`. -/
def processRowSizeSubheader (sas : SAS7BDAT) (offset length : Int) :
    SAS7BDAT × Option ReadError :=
  let _ := length
  let int_len := sas.properties.intLength
  let lcs_offset := offset + (if sas.U64 then 682 else 354)
  let lcp_offset := offset + (if sas.U64 then 706 else 378)
  match readInt sas (offset + 5 * int_len) int_len with
  | (sas, .error e) => (sas, some e)
  | (sas, .ok rowLength) =>
    let sas := { sas with properties := { sas.properties with rowLength := rowLength } }
    match readInt sas (offset + 6 * int_len) int_len with
    | (sas, .error e) => (sas, some e)
    | (sas, .ok rowCount) =>
      let sas := { sas with rowCount := rowCount }
      match readInt sas (offset + 9 * int_len) int_len with
      | (sas, .error e) => (sas, some e)
      | (sas, .ok colCountP1) =>
        let sas := { sas with properties := { sas.properties with colCountP1 := colCountP1 } }
        match readInt sas (offset + 10 * int_len) int_len with
        | (sas, .error e) => (sas, some e)
        | (sas, .ok colCountP2) =>
          let sas := { sas with properties := { sas.properties with colCountP2 := colCountP2 } }
          match readInt sas (offset + 15 * int_len) int_len with
          | (sas, .error e) => (sas, some e)
          | (sas, .ok mixPageRowCount) =>
            let sas := { sas with properties := { sas.properties with mixPageRowCount := mixPageRowCount } }
            match readInt sas lcs_offset 2 with
            | (sas, .error e) => (sas, some e)
            | (sas, .ok lcs) =>
              let sas := { sas with properties := { sas.properties with lcs := lcs } }
              match readInt sas lcp_offset 2 with
              | (sas, .error e) => (sas, some e)
              | (sas, .ok lcp) =>
                ({ sas with properties := { sas.properties with lcp := lcp } }, none)

/-- `processColumnsizeSubheader(offset, length)` (the column-count mismatch
warning only writes to stderr). -/
def processColumnsizeSubheader (sas : SAS7BDAT) (offset length : Int) :
    SAS7BDAT × Option ReadError :=
  let _ := length
  let intLen := sas.properties.intLength
  let offset := offset + intLen
  match readInt sas offset intLen with
  | (sas, .error e) => (sas, some e)
  | (sas, .ok columnCount) =>
    ({ sas with properties := { sas.properties with columnCount := columnCount } }, none)

/-- `processColumnTextSubheader(offset, length)`. -/
def processColumnTextSubheader (sas : SAS7BDAT) (offset length : Int) :
    SAS7BDAT × Option ReadError :=
  let offset := offset + sas.properties.intLength
  let textBlockSize := length - sas.properties.intLength
  match readBytes sas offset textBlockSize with
  | (sas, some _) => (sas, some (.goError "Cannot read column names strings."))
  | (sas, none) =>
    let sas := { sas with columnNamesStrings :=
      sas.columnNamesStrings ++ [sas.buf.take textBlockSize.toNat] }
    if sas.columnNamesStrings.length = 1 then
      let column_name := sas.buf.take textBlockSize.toNat
      let compression_literal :=
        (compression_literals.find? (fun cl => decide (cl <:+: column_name))).getD []
      let sas := { sas with Compression := compression_literal }
      let offset := offset - sas.properties.intLength
      let offset1 := offset + 16 + (if sas.U64 then 4 else 0)
      match readBytes sas offset1 sas.properties.lcp with
      | (sas, some e) => (sas, some e)
      | (sas, none) =>
        if sas.buf.length < 8 then (sas, some (.goPanic "slice bounds out of range"))
        else
          let compression_literal := goTrim (sas.buf.take 8) [0x00]
          if compression_literal = [] then
            let sas := { sas with properties := { sas.properties with lcs := 0 } }
            let offset1 := offset + 32 + (if sas.U64 then 4 else 0)
            match readBytes sas offset1 sas.properties.lcp with
            | (sas, some e) => (sas, some e)
            | (sas, none) =>
              if sas.properties.lcp < 0 ∨ (sas.buf.length : Int) < sas.properties.lcp then
                (sas, some (.goPanic "slice bounds out of range"))
              else
                ({ sas with properties := { sas.properties with
                    creatorProc := sas.buf.take sas.properties.lcp.toNat } }, none)
          else if compression_literal = rle_compression then
            let offset1 := offset + 40 + (if sas.U64 then 4 else 0)
            match readBytes sas offset1 sas.properties.lcp with
            | (sas, some e) => (sas, some e)
            | (sas, none) =>
              if sas.properties.lcp < 0 ∨ (sas.buf.length : Int) < sas.properties.lcp then
                (sas, some (.goPanic "slice bounds out of range"))
              else
                ({ sas with properties := { sas.properties with
                    creatorProc := sas.buf.take sas.properties.lcp.toNat } }, none)
          else if sas.properties.lcs > 0 then
            let sas := { sas with properties := { sas.properties with lcp := 0 } }
            let offset1 := offset + 16 + (if sas.U64 then 4 else 0)
            match readBytes sas offset1 sas.properties.lcs with
            | (sas, some e) => (sas, some e)
            | (sas, none) =>
              ({ sas with properties := { sas.properties with
                  creatorProc := sas.buf.take sas.properties.lcp.toNat } }, none)
          else (sas, none)
    else (sas, none)

/-- One iteration of the `processColumnNameSubheader` loop. -/
def processColumnNameOne (sas : SAS7BDAT) (offset : Int) (i : Nat) :
    SAS7BDAT × Option ReadError :=
  let text_subheader := offset + 8 * ((i : Int) + 1) + 0
  let col_name_offset := offset + 8 * ((i : Int) + 1) + 2
  let col_name_length := offset + 8 * ((i : Int) + 1) + 4
  match readInt sas text_subheader 2 with
  | (sas, .error _) => (sas, some (.goError "Unable to read text subheader for column name."))
  | (sas, .ok idx) =>
    match readInt sas col_name_offset 2 with
    | (sas, .error _) => (sas, some (.goError "Unable to read column_name offset."))
    | (sas, .ok col_offset) =>
      match readInt sas col_name_length 2 with
      | (sas, .error _) => (sas, some (.goError "Unable to read column name length."))
      | (sas, .ok col_len) =>
        match goIdx sas.columnNamesStrings idx with
        | none => (sas, some (.goPanic "index out of range"))
        | some name_str =>
          match goSlice name_str col_offset (col_offset + col_len) with
          | none => (sas, some (.goPanic "slice bounds out of range"))
          | some name => ({ sas with columnNames := sas.columnNames ++ [name] }, none)

def processColumnNameLoop (offset : Int) :
    Nat → Nat → SAS7BDAT → SAS7BDAT × Option ReadError
  | 0, _, sas => (sas, none)
  | remaining + 1, i, sas =>
    match processColumnNameOne sas offset i with
    | (sas, some e) => (sas, some e)
    | (sas, none) => processColumnNameLoop offset remaining (i + 1) sas

/-- `processColumnNameSubheader(offset, length)`. -/
def processColumnNameSubheader (sas : SAS7BDAT) (offset length : Int) :
    SAS7BDAT × Option ReadError :=
  let intLen := sas.properties.intLength
  let offset := offset + intLen
  let column_name_pointers_count := goDiv (length - 2 * intLen - 12) 8
  processColumnNameLoop offset column_name_pointers_count.toNat 0 sas

/-- One iteration of the `processColumnAttributesSubheader` loop. -/
def processColumnAttributesOne (sas : SAS7BDAT) (offset : Int) (i : Nat) :
    SAS7BDAT × Option ReadError :=
  let intLen := sas.properties.intLength
  let colDataOffset := offset + intLen + 8 + (i : Int) * (intLen + 8)
  let colDataLen := offset + 2 * intLen + 8 + (i : Int) * (intLen + 8)
  let colTypes := offset + 2 * intLen + 14 + (i : Int) * (intLen + 8)
  match readInt sas colDataOffset intLen with
  | (sas, .error e) => (sas, some e)
  | (sas, .ok x) =>
    let sas := { sas with columnDataOffsets := sas.columnDataOffsets ++ [x] }
    match readInt sas colDataLen 4 with
    | (sas, .error e) => (sas, some e)
    | (sas, .ok x) =>
      let sas := { sas with columnDataLengths := sas.columnDataLengths ++ [x] }
      match readInt sas colTypes 1 with
      | (sas, .error e) => (sas, some e)
      | (sas, .ok x) =>
        if x = 1 then
          ({ sas with columnTypes := sas.columnTypes ++ [SASNumericType] }, none)
        else
          ({ sas with columnTypes := sas.columnTypes ++ [SASStringType] }, none)

def processColumnAttributesLoop (offset : Int) :
    Nat → Nat → SAS7BDAT → SAS7BDAT × Option ReadError
  | 0, _, sas => (sas, none)
  | remaining + 1, i, sas =>
    match processColumnAttributesOne sas offset i with
    | (sas, some e) => (sas, some e)
    | (sas, none) => processColumnAttributesLoop offset remaining (i + 1) sas

/-- `processColumnAttributesSubheader(offset, length)`. -/
def processColumnAttributesSubheader (sas : SAS7BDAT) (offset length : Int) :
    SAS7BDAT × Option ReadError :=
  let intLen := sas.properties.intLength
  if intLen + 8 = 0 then (sas, some (.goPanic "integer divide by zero"))
  else
    let column_attributes_vectors_count := goDiv (length - 2 * intLen - 12) (intLen + 8)
    processColumnAttributesLoop offset column_attributes_vectors_count.toNat 0 sas

/-- `processColumnListSubheader`: a no-op ("unknown purpose"). -/
def processColumnListSubheader (sas : SAS7BDAT) (offset length : Int) :
    SAS7BDAT × Option ReadError :=
  let _ := offset
  let _ := length
  (sas, none)

/-- `processFormatSubheader(offset, length)`.  All `readInt` errors are
discarded (`x, _ := sas.readInt(...)`), in which case the returned value 0 is
used. -/
def processFormatSubheader (sas : SAS7BDAT) (offset length : Int) :
    SAS7BDAT × Option ReadError :=
  let _ := length
  let int_len := sas.properties.intLength
  let text_subheader_format := offset + 22 + 3 * int_len
  let col_format_offset := offset + 24 + 3 * int_len
  let col_format_len := offset + 26 + 3 * int_len
  let text_subheader_label := offset + 28 + 3 * int_len
  let col_label_offset := offset + 30 + 3 * int_len
  let col_label_len := offset + 32 + 3 * int_len
  let (sas, r) := readInt sas text_subheader_format 2
  let format_idx := (r.toOption.getD 0)
  let format_idx := goMin format_idx ((sas.columnNamesStrings.length : Int) - 1)
  let (sas, r) := readInt sas col_format_offset 2
  let format_start := r.toOption.getD 0
  let (sas, r) := readInt sas col_format_len 2
  let format_len := r.toOption.getD 0
  let (sas, r) := readInt sas text_subheader_label 2
  let label_idx := r.toOption.getD 0
  let label_idx := goMin label_idx ((sas.columnNamesStrings.length : Int) - 1)
  let (sas, r) := readInt sas col_label_offset 2
  let label_start := r.toOption.getD 0
  let (sas, r) := readInt sas col_label_len 2
  let label_len := r.toOption.getD 0
  match goIdx sas.columnNamesStrings label_idx with
  | none => (sas, some (.goPanic "index out of range"))
  | some label_names =>
    match goSlice label_names label_start (label_start + label_len) with
    | none => (sas, some (.goPanic "slice bounds out of range"))
    | some column_label =>
      match goIdx sas.columnNamesStrings format_idx with
      | none => (sas, some (.goPanic "index out of range"))
      | some format_names =>
        match goSlice format_names format_start (format_start + format_len) with
        | none => (sas, some (.goPanic "slice bounds out of range"))
        | some column_format =>
          let current_column_number := sas.columns.length
          match sas.columnNames.get? current_column_number,
                sas.columnTypes.get? current_column_number,
                sas.columnDataLengths.get? current_column_number with
          | some name, some ctype, some clength =>
            let col : Column :=
              ⟨(current_column_number : Int), name, column_label, column_format, ctype, clength⟩
            ({ sas with
                columnLabels := sas.columnLabels ++ [column_label],
                ColumnFormats := sas.ColumnFormats ++ [column_format],
                columns := sas.columns ++ [col] }, none)
          | _, _, _ => (sas, some (.goPanic "index out of range"))

/-- `processSubheader(subheader_index, pointer)`. -/
def processSubheader (sas : SAS7BDAT) (subheader_index : Int)
    (pointer : SubheaderPointer) : SAS7BDAT × Option ReadError :=
  let offset := pointer.offset
  let length := pointer.length
  if subheader_index = rowSizeIndex then processRowSizeSubheader sas offset length
  else if subheader_index = columnSizeIndex then processColumnsizeSubheader sas offset length
  else if subheader_index = columnTextIndex then processColumnTextSubheader sas offset length
  else if subheader_index = columnNameIndex then processColumnNameSubheader sas offset length
  else if subheader_index = columnAttributesIndex then processColumnAttributesSubheader sas offset length
  else if subheader_index = formatAndLabelIndex then processFormatSubheader sas offset length
  else if subheader_index = columnListIndex then processColumnListSubheader sas offset length
  else if subheader_index = subheaderCountsIndex then processSubheaderCounts sas offset length
  else if subheader_index = dataSubheaderIndex then
    ({ sas with currentPageDataSubheaderPointers :=
        sas.currentPageDataSubheaderPointers ++ [pointer] }, none)
  else (sas, some (.goError "unknown index type"))

/-- One iteration of the `processPageMetadata` loop. -/
def processPageMetadataOne (sas : SAS7BDAT) (i : Nat) :
    SAS7BDAT × Option ReadError :=
  let bit_offset := sas.properties.pageBitOffset
  match processSubheaderPointers sas (subheader_pointers_offset + bit_offset) (i : Int) with
  | (sas, .error e) => (sas, some e)
  | (sas, .ok pointer) =>
    if pointer.length = 0 ∨ pointer.compression = truncated_subheader_id then
      (sas, none)
    else
      match readSubheaderSignature sas pointer.offset with
      | (sas, .error e) => (sas, some e)
      | (sas, .ok subheader_signature) =>
        match getSubheaderIndex sas subheader_signature pointer.compression pointer.ptype with
        | .error _ => (sas, some (.goError "unknown subheader"))
        | .ok subheader_index => processSubheader sas subheader_index pointer

def processPageMetadataLoop : Nat → Nat → SAS7BDAT → SAS7BDAT × Option ReadError
  | 0, _, sas => (sas, none)
  | remaining + 1, i, sas =>
    match processPageMetadataOne sas i with
    | (sas, some e) => (sas, some e)
    | (sas, none) => processPageMetadataLoop remaining (i + 1) sas

/-- `processPageMetadata()`. -/
def processPageMetadata (sas : SAS7BDAT) : SAS7BDAT × Option ReadError :=
  processPageMetadataLoop sas.currentPageSubheadersCount.toNat 0 sas

/-- `readPageHeader()`. -/
def readPageHeader (sas : SAS7BDAT) : SAS7BDAT × Option ReadError :=
  let bitOffset := sas.properties.pageBitOffset
  match readInt sas (0 + bitOffset) 2 with
  | (sas, .error _) => (sas, some (.goError "Unable to read page type value."))
  | (sas, .ok pageType) =>
    let sas := { sas with currentPageType := pageType }
    match readInt sas (2 + bitOffset) 2 with
    | (sas, .error _) => (sas, some (.goError "Unable to read block count value."))
    | (sas, .ok blockCount) =>
      let sas := { sas with currentPageBlockCount := blockCount }
      match readInt sas (4 + bitOffset) 2 with
      | (sas, .error _) => (sas, some (.goError "Unable to read subheader count value."))
      | (sas, .ok subheadersCount) =>
        ({ sas with currentPageSubheadersCount := subheadersCount }, none)

/-- `isPageMixType(val)`. -/
def isPageMixType (val : Int) : Bool :=
  val = 512 ∨ val = 640

/-- `checkPageType(current_page)`: true when the page is *not* one of the
known data-bearing types. -/
def checkPageType (current_page : Int) : Bool :=
  ¬(current_page = page_meta_type ∨ current_page = page_data_type ∨
    current_page = 512 ∨ current_page = 640)

/-- The loop/recursion of `readNextPage()`: it re-invokes itself while the
page type passes `checkPageType`.  Each round that recurses has read at least
one byte, so `file.data.length + 1` fuel always suffices. -/
def readNextPageLoop : Nat → SAS7BDAT → SAS7BDAT × Except ReadError Bool
  | 0, sas => (sas, .error (.goPanic "out of fuel (unreachable)"))
  | fuel + 1, sas =>
    let sas := { sas with currentPageDataSubheaderPointers := [] }
    if sas.properties.pageLength < 0 then
      (sas, .error (.goPanic "makeslice: len out of range"))
    else
      let (f', chunk) := fileRead sas.file sas.properties.pageLength.toNat
      let n := chunk.length
      -- cachedPage = make([]byte, pageLength) filled with the bytes read
      let sas := { sas with
                   file := f',
                   cachedPage := some (chunk ++ List.replicate (sas.properties.pageLength.toNat - n) 0) }
      if n = 0 then (sas, .ok true)
      else
        -- a short read keeps err == nil (or io.EOF) for this byte source, and
        -- len(cachedPage) == pageLength always holds, so neither source check fires
        match readPageHeader sas with
        | (sas, some e) => (sas, .error e)
        | (sas, none) =>
          if sas.currentPageType = page_meta_type then
            match processPageMetadata sas with
            | (sas, some e) => (sas, .error e)
            | (sas, none) =>
              if checkPageType sas.currentPageType then readNextPageLoop fuel sas
              else (sas, .ok false)
          else
            if checkPageType sas.currentPageType then readNextPageLoop fuel sas
            else (sas, .ok false)

/-- `readNextPage()`. -/
def readNextPage (sas : SAS7BDAT) : SAS7BDAT × Except ReadError Bool :=
  readNextPageLoop (sas.file.data.length + 1) sas

/-! ## Row decoding (`processByteArrayWithData`) -/

/-- `getDecompressor()`: `nil` for an unrecognised compression literal. -/
def getDecompressor (sas : SAS7BDAT) :
    Option (Int → List UInt8 → Except ReadError (List UInt8)) :=
  if sas.Compression = rle_compression then some rle_decompress
  else if sas.Compression = rdc_compression then some rdc_decompress
  else none

/-- Outcome of one iteration of the per-column loop in
`processByteArrayWithData`: advance to the next column, `break`, or fail. -/
inductive ColStep where
  | next : ColStep
  | stop : ColStep
  | fail : ReadError → ColStep

/-- The string-interning step of `processByteArrayWithData`:

    k, ok := sas.stringPoolR[string(temp)]
    if !ok {
        k = uint64(len(sas.stringPool))
        sas.stringPool[k] = string(temp)
        sas.stringPoolR[string(temp)] = k
    }

Returns the id `k` together with the updated pools. -/
def internString (pool : List (Nat × GoStr)) (poolR : List (GoStr × Nat))
    (temp : GoStr) : Nat × List (Nat × GoStr) × List (GoStr × Nat) :=
  match poolR.lookup temp with
  | some k => (k, pool, poolR)
  | none => (pool.length, pool ++ [(pool.length, temp)], poolR ++ [(temp, pool.length)])

/-- The body of the per-column loop of `processByteArrayWithData` for column
`j` (source lines: `length := sas.columnDataLengths[j]` through
`sas.stringchunk[j][sas.currentRowInChunkIndex] = k`). -/
def processColumnOne (sas : SAS7BDAT) (source : List UInt8) (j : Nat) :
    SAS7BDAT × ColStep :=
  match sas.columnDataLengths.get? j with
  | none => (sas, .fail (.goPanic "index out of range"))
  | some lengthj =>
    if lengthj = 0 then (sas, .stop)
    else
      match sas.columnDataOffsets.get? j with
      | none => (sas, .fail (.goPanic "index out of range"))
      | some start =>
        match goSlice source start (start + lengthj) with
        | none => (sas, .fail (.goPanic "slice bounds out of range"))
        | some temp =>
          match sas.columns.get? j with
          | none => (sas, .fail (.goPanic "index out of range"))
          | some col =>
            if col.ctype = SASNumericType then
              let s := 8 * sas.currentRowInChunkIndex
              match sas.bytechunk.get? j with
              | none => (sas, .fail (.goPanic "index out of range"))
              | some chunkj =>
                match sas.ByteOrder with
                | .littleEndian =>
                  -- copy(sas.bytechunk[j][s+m:s+8], temp) with m = 8 - length
                  let m := 8 - lengthj
                  if 0 ≤ s + m ∧ s + 8 ≤ (chunkj.length : Int) then
                    ({ sas with bytechunk :=
                        sas.bytechunk.set j (listSetRange chunkj (s + m).toNat temp) },
                     .next)
                  else (sas, .fail (.goPanic "slice bounds out of range"))
                | .bigEndian =>
                  -- copy(sas.bytechunk[j][s:s+length], temp)
                  if 0 ≤ s ∧ s + lengthj ≤ (chunkj.length : Int) then
                    ({ sas with bytechunk :=
                        sas.bytechunk.set j (listSetRange chunkj s.toNat temp) },
                     .next)
                  else (sas, .fail (.goPanic "slice bounds out of range"))
            else
              let temp := if sas.TrimStrings then goTrimRight temp [0x00, 0x20] else temp
              match (match sas.TextDecoder with
                     | none => some temp
                     | some dec => dec temp) with
              | none => (sas, .fail (.goPanic "text decoder error"))
              | some temp =>
                let (k, pool, poolR) := internString sas.stringPool sas.stringPoolR temp
                let sas := { sas with stringPool := pool, stringPoolR := poolR }
                match sas.stringchunk.get? j with
                | none => (sas, .fail (.goPanic "index out of range"))
                | some scj =>
                  if 0 ≤ sas.currentRowInChunkIndex ∧
                      sas.currentRowInChunkIndex < (scj.length : Int) then
                    ({ sas with stringchunk :=
                        sas.stringchunk.set j (scj.set sas.currentRowInChunkIndex.toNat k) },
                     .next)
                  else (sas, .fail (.goPanic "index out of range"))

def processColumnsLoop (source : List UInt8) :
    Nat → Nat → SAS7BDAT → SAS7BDAT × Option ReadError
  | 0, _, sas => (sas, none)
  | remaining + 1, j, sas =>
    match processColumnOne sas source j with
    | (sas, .next) => processColumnsLoop source remaining (j + 1) sas
    | (sas, .stop) => (sas, none)
    | (sas, .fail e) => (sas, some e)

/-- The column loop of `processByteArrayWithData` followed by the three
row-index increments that close the function. -/
def processColumnsAndAdvance (sas : SAS7BDAT) (source : List UInt8) :
    SAS7BDAT × Option ReadError :=
  match processColumnsLoop source sas.properties.columnCount.toNat 0 sas with
  | (sas, some e) => (sas, some e)
  | (sas, none) =>
    ({ sas with
       currentRowOnPageIndex := sas.currentRowOnPageIndex + 1,
       currentRowInChunkIndex := sas.currentRowInChunkIndex + 1,
       currentRowInFileIndex := sas.currentRowInFileIndex + 1 }, none)

/-- `processByteArrayWithData(offset, length)`.  Note the page-continuation
branch: `err, ok := sas.readNextPage()` uses the *done* flag as `ok`, so the
branch only proceeds when the file is exhausted (in which case the appended
"next page" is all zero bytes). -/
def processByteArrayWithData (sas : SAS7BDAT) (offset length : Int) :
    SAS7BDAT × Option ReadError :=
  if sas.Compression ≠ [] ∧ length < sas.properties.rowLength then
    match getDecompressor sas with
    | none => (sas, some (.goPanic "call of nil function (no decompressor)"))
    | some decompressor =>
      match goSlice (sas.cachedPage.getD []) offset (offset + length) with
      | none => (sas, some (.goPanic "slice bounds out of range"))
      | some compressed =>
        match decompressor sas.properties.rowLength compressed with
        | .error e => (sas, some e)
        | .ok source => processColumnsAndAdvance sas source
  else
    let step :=
      if offset + length > ((sas.cachedPage.getD []).length : Int) then
        let oldPage := sas.cachedPage.getD []
        match readNextPage sas with
        | (sas, .error _) => (sas, some (.goError "error reading next page"))
        | (sas, .ok false) => (sas, some (.goError "error reading next page"))
        | (sas, .ok true) =>
          ({ sas with cachedPage := some (oldPage ++ sas.cachedPage.getD []) }, none)
      else (sas, none)
    match step with
    | (sas, some e) => (sas, some e)
    | (sas, none) =>
      match goSlice (sas.cachedPage.getD []) offset (offset + length) with
      | none => (sas, some (.goPanic "slice bounds out of range"))
      | some source => processColumnsAndAdvance sas source

/-! ## The row iterator (`readline`) -/

/-- The `for {}` loop of `readline`.  `bit_offset` and
`subheaderPointerLength` are captured before the loop, exactly as in the
source.  Only the meta-page branch iterates (its `continue` follows a
successful `readNextPage`, which has consumed at least one byte), so
`file.data.length + 2` fuel always suffices. -/
def readlineLoop (bit_offset subheaderPointerLength : Int) :
    Nat → SAS7BDAT → SAS7BDAT × Except ReadError Bool
  | 0, sas => (sas, .error (.goPanic "out of fuel (unreachable)"))
  | fuel + 1, sas =>
    if sas.currentPageType = page_meta_type then
      if sas.currentRowOnPageIndex ≥ (sas.currentPageDataSubheaderPointers.length : Int) then
        match readNextPage sas with
        | (sas, .error e) => (sas, .error e)
        | (sas, .ok true) => (sas, .ok true)
        | (sas, .ok false) =>
          readlineLoop bit_offset subheaderPointerLength fuel
            { sas with currentRowOnPageIndex := 0 }
      else
        match goIdx sas.currentPageDataSubheaderPointers sas.currentRowOnPageIndex with
        | none => (sas, .error (.goPanic "index out of range"))
        | some current_subheader_pointer =>
          match processByteArrayWithData sas current_subheader_pointer.offset
              current_subheader_pointer.length with
          | (sas, some e) => (sas, .error e)
          | (sas, none) => (sas, .ok false)
    else if isPageMixType sas.currentPageType then
      let alignCorrection0 := goMod (bit_offset + subheader_pointers_offset +
        sas.currentPageSubheadersCount * subheaderPointerLength) 8
      let alignCorrection := if sas.NoAlignCorrection then 0 else alignCorrection0
      let offset := bit_offset + subheader_pointers_offset +
        sas.currentPageSubheadersCount * subheaderPointerLength +
        sas.currentRowOnPageIndex * sas.properties.rowLength +
        alignCorrection
      match processByteArrayWithData sas offset sas.properties.rowLength with
      | (sas, some e) => (sas, .error e)
      | (sas, none) =>
        if sas.currentRowOnPageIndex = goMin sas.rowCount sas.properties.mixPageRowCount then
          match readNextPage sas with
          | (sas, .error e) => (sas, .error e)
          | (sas, .ok true) => (sas, .ok true)
          | (sas, .ok false) => ({ sas with currentRowOnPageIndex := 0 }, .ok false)
        else (sas, .ok false)
    else if sas.currentPageType = page_data_type then
      match processByteArrayWithData sas
          (bit_offset + subheader_pointers_offset +
            sas.currentRowOnPageIndex * sas.properties.rowLength)
          sas.properties.rowLength with
      | (sas, some e) => (sas, .error e)
      | (sas, none) =>
        if sas.currentRowOnPageIndex = sas.currentPageBlockCount then
          match readNextPage sas with
          | (sas, .error e) => (sas, .error e)
          | (sas, .ok true) => (sas, .ok true)
          | (sas, .ok false) => ({ sas with currentRowOnPageIndex := 0 }, .ok false)
        else (sas, .ok false)
    else (sas, .error (.goError "unknown page type"))

/-- `readline()`: returns `(error, done)` as `Except`, with `.ok done`. -/
def readline (sas : SAS7BDAT) : SAS7BDAT × Except ReadError Bool :=
  let bit_offset := sas.properties.pageBitOffset
  let subheaderPointerLength := sas.properties.subheaderPointerLength
  match sas.cachedPage with
  | none =>
    match fileSeek sas.file sas.properties.headerLength with
    | .error e => (sas, .error e)
    | .ok f =>
      let sas := { sas with file := f }
      match readNextPage sas with
      | (sas, .error e) => (sas, .error e)
      | (sas, .ok true) => (sas, .ok true)
      | (sas, .ok false) =>
        readlineLoop bit_offset subheaderPointerLength (sas.file.data.length + 2) sas
  | some _ =>
    readlineLoop bit_offset subheaderPointerLength (sas.file.data.length + 2) sas

/-! ## Series construction (`chunkToSeries`, `Read`)

A `Series` (from `series.go`) carries a name, a length, data of one of the
element types the SAS reader produces, and a missing mask.  A `time.Time`
produced by `toDate`/`toDateTime` is represented by the IEEE 754 bit pattern
of the `float64` it was computed from: the floating-point date arithmetic
itself (`base.Add(time.Hour * time.Duration(24*v))`) is not modelled, and no
claim concerns the numeric value of a timestamp, only whether a column was
converted to timestamps at all. -/

/-- A `time.Time` value as produced by the date conversions, identified by
the `float64` bit pattern it was derived from. -/
structure GoTime where
  bits : UInt64
deriving Repr, DecidableEq

/-- The element types a SAS `Series` can hold (`[]float64`, `[]time.Time`,
`[]string`, `[]uint64`); `float64` values are carried as bit patterns. -/
inductive SeriesData where
  | floats : List UInt64 → SeriesData
  | times : List GoTime → SeriesData
  | strs : List GoStr → SeriesData
  | uints : List Nat → SeriesData
deriving Repr, DecidableEq

/-- `ilen(data)` for the data types above. -/
def seriesDataLength : SeriesData → Nat
  | .floats v => v.length
  | .times v => v.length
  | .strs v => v.length
  | .uints v => v.length

/-- `type Series struct` with `length` set as `NewSeries` sets it. -/
structure Series where
  Name : GoStr
  length : Nat
  data : SeriesData
  missing : List Bool
deriving Repr, DecidableEq

/-- `NewSeries(name, data, missing)` (never errors for these data types). -/
def NewSeries (name : GoStr) (data : SeriesData) (missing : List Bool) : Series :=
  ⟨name, seriesDataLength data, data, missing⟩

/-- `toDate(x)`: "days since 1960-01-01" doubles to timestamps. -/
def toDate (x : List UInt64) : List GoTime :=
  x.map GoTime.mk

/-- `toDateTime(x)`: "seconds since 1960-01-01" doubles to timestamps. -/
def toDateTime (x : List UInt64) : List GoTime :=
  x.map GoTime.mk

/-- `math.IsNaN` on a `float64` bit pattern: exponent bits all ones and a
non-zero mantissa. -/
def isNaN64 (bits : UInt64) : Bool :=
  decide ((bits.toNat / 2 ^ 52) % 2 ^ 11 = 2047 ∧ bits.toNat % 2 ^ 52 ≠ 0)

/-- `binary.Read(r, byteOrder, &vec)` for `vec []float64`: split the bytes
into groups of eight and assemble each group per the byte order.  (The
callers always supply a multiple of eight bytes.) -/
def toF64List (bo : ByteOrderT) : List UInt8 → List UInt64
  | b0 :: b1 :: b2 :: b3 :: b4 :: b5 :: b6 :: b7 :: rest =>
    UInt64.ofNat (bytesToNat bo [b0, b1, b2, b3, b4, b5, b6, b7]) :: toF64List bo rest
  | _ => []

/-- `"MMDDYY"`. -/
def fmtMMDDYY : GoStr := [0x4D, 0x4D, 0x44, 0x44, 0x59, 0x59]
/-- `"DATE"`. -/
def fmtDATE : GoStr := [0x44, 0x41, 0x54, 0x45]
/-- `"DATETIME"`. -/
def fmtDATETIME : GoStr := [0x44, 0x41, 0x54, 0x45, 0x54, 0x49, 0x4D, 0x45]

/-- The body of the per-column loop of `chunkToSeries` for column `j`, with
`n = sas.currentRowInChunkIndex`.  The date-conversion condition is written
with Go's `&&`/`||` precedence: `sas.ConvertDates && format == "MMDDYY" ||
format == "DATE"` parses as `(ConvertDates && format == "MMDDYY") ||
format == "DATE"`. -/
def chunkToSeriesOne (sas : SAS7BDAT) (n : Nat) (j : Nat) :
    Except ReadError Series :=
  match sas.columnNames.get? j with
  | none => .error (.goPanic "index out of range")
  | some name =>
    let miss := List.replicate n false
    match sas.columnTypes.get? j with
    | none => .error (.goPanic "index out of range")
    | some ctype =>
      if ctype = SASNumericType then
        match sas.bytechunk.get? j with
        | none => .error (.goPanic "index out of range")
        | some chunkj =>
          if 8 * n ≤ chunkj.length then
            let vec := toF64List sas.ByteOrder (chunkj.take (8 * n))
            let miss := vec.map isNaN64
            match sas.ColumnFormats.get? j with
            | none => .error (.goPanic "index out of range")
            | some fmtj =>
              if (sas.ConvertDates ∧ fmtj = fmtMMDDYY) ∨ fmtj = fmtDATE then
                .ok (NewSeries name (.times (toDate vec)) miss)
              else if sas.ConvertDates ∧ fmtj = fmtDATETIME then
                .ok (NewSeries name (.times (toDateTime vec)) miss)
              else
                .ok (NewSeries name (.floats vec) miss)
          else .error (.goPanic "slice bounds out of range")
      else if ctype = SASStringType then
        match sas.stringchunk.get? j with
        | none => .error (.goPanic "index out of range")
        | some scj =>
          if sas.FactorizeStrings then
            .ok (NewSeries name (.uints scj) miss)
          else
            if n ≤ scj.length then
              .ok (NewSeries name
                (.strs ((scj.take n).map (fun id => (sas.stringPool.lookup id).getD [])))
                miss)
            else .error (.goPanic "index out of range")
      else .error (.goPanic "Unknown column type")

def chunkToSeriesLoop (sas : SAS7BDAT) (n : Nat) :
    Nat → Nat → Except ReadError (List Series)
  | 0, _ => .ok []
  | remaining + 1, j =>
    match chunkToSeriesOne sas n j with
    | .error e => .error e
    | .ok ser =>
      match chunkToSeriesLoop sas n remaining (j + 1) with
      | .error e => .error e
      | .ok rest => .ok (ser :: rest)

/-- `chunkToSeries()`.  An `.error` outcome models a Go panic aborting the
conversion (`chunkToSeries` itself returns no error in the source). -/
def chunkToSeries (sas : SAS7BDAT) : Except ReadError (List Series) :=
  if sas.currentRowInChunkIndex < 0 then
    .error (.goPanic "makeslice: len out of range")
  else
    chunkToSeriesLoop sas sas.currentRowInChunkIndex.toNat
      sas.properties.columnCount.toNat 0

/-- The per-column allocation loop at the top of `Read`:
`bytechunk[j] = make([]byte, 8*num_rows)` for numeric columns and
`stringchunk[j] = make([]uint64, num_rows)` for string columns (the slice of
the other kind stays `nil` for that column). -/
def allocChunksLoop (sas : SAS7BDAT) (num_rows : Int) :
    Nat → Nat → List (List UInt8) → List (List Nat) →
    Except ReadError (List (List UInt8) × List (List Nat))
  | 0, _, bc, sc => .ok (bc, sc)
  | remaining + 1, j, bc, sc =>
    match sas.columnTypes.get? j with
    | none => .error (.goPanic "index out of range")
    | some t =>
      if t = SASNumericType then
        allocChunksLoop sas num_rows remaining (j + 1)
          (bc ++ [List.replicate (8 * num_rows).toNat 0]) (sc ++ [[]])
      else if t = SASStringType then
        allocChunksLoop sas num_rows remaining (j + 1)
          (bc ++ [[]]) (sc ++ [List.replicate num_rows.toNat 0])
      else .error (.goError "unknown column type")

/-- The row loop of `Read`: up to `num_rows` calls of `readline`, stopping
early when `readline` reports that the file is exhausted. -/
def readRowsLoop : Nat → SAS7BDAT → SAS7BDAT × Except ReadError Unit
  | 0, sas => (sas, .ok ())
  | i + 1, sas =>
    match readline sas with
    | (sas, .error e) => (sas, .error e)
    | (sas, .ok true) => (sas, .ok ())
    | (sas, .ok false) => readRowsLoop i sas

/-- `Read(num_rows)`. -/
def Read (sas : SAS7BDAT) (num_rows : Int) :
    SAS7BDAT × Except ReadError (List Series) :=
  let num_rows := if num_rows < 0 then sas.rowCount - sas.currentRowInFileIndex
    else num_rows
  if sas.currentRowInFileIndex ≥ sas.rowCount then (sas, .error .eof)
  else
    let sas := { sas with stringPool := [], stringPoolR := [] }
    if sas.properties.columnCount < 0 then
      (sas, .error (.goPanic "makeslice: len out of range"))
    else
      match allocChunksLoop sas num_rows sas.properties.columnCount.toNat 0 [] [] with
      | .error e => (sas, .error e)
      | .ok (bc, sc) =>
        let sas := { sas with
                     bytechunk := bc,
                     stringchunk := sc,
                     currentRowInChunkIndex := 0 }
        match readRowsLoop num_rows.toNat sas with
        | (sas, .error e) => (sas, .error e)
        | (sas, .ok _) =>
          match chunkToSeries sas with
          | .error e => (sas, .error e)
          | .ok rslt => (sas, .ok rslt)

/-! ## Reference definitions written from the specification's words

These are *not* translations of the source; they state what the
specification says, for comparison with the translated code. -/

/-- The specification's byte-by-byte back-reference copy for RDC: append
`cnt` bytes one at a time, each read at distance `ofs` from the current end
of the output, so an overlapping back-reference reproduces the repeating
pattern. -/
def rdcBackRefSpec (outbuff : List UInt8) (ofs : Nat) : Nat → List UInt8
  | 0 => outbuff
  | cnt + 1 =>
    rdcBackRefSpec (outbuff ++ [outbuff.getD (outbuff.length - ofs) 0]) ofs cnt

/-- The distinct strings of `ws` in order of first appearance. -/
def dedupFirst (ws : List GoStr) : List GoStr :=
  ws.foldl (fun acc w => if w ∈ acc then acc else acc ++ [w]) []

/-- Fold `internString` over a list of decoded strings, as successive string
cells of a `Read` call do, returning the final pools. -/
def internFold (pool : List (Nat × GoStr)) (poolR : List (GoStr × Nat)) :
    List GoStr → List (Nat × GoStr) × List (GoStr × Nat)
  | [] => (pool, poolR)
  | w :: ws =>
    let (_, pool, poolR) := internString pool poolR w
    internFold pool poolR ws

/-- The ids assigned by successive `internString` calls. -/
def internIds (pool : List (Nat × GoStr)) (poolR : List (GoStr × Nat)) :
    List GoStr → List Nat
  | [] => []
  | w :: ws =>
    let (k, pool, poolR) := internString pool poolR w
    k :: internIds pool poolR ws

/-! ## Concrete states for witnesses -/

def baseProps : SASProperties :=
  { intLength := 4, pageBitOffset := 16, subheaderPointerLength := 12,
    headerLength := 1024, pageLength := 0, pageCount := 0, rowLength := 0,
    colCountP1 := 0, colCountP2 := 0, mixPageRowCount := 0, lcs := 0,
    lcp := 0, creatorProc := [], columnCount := 0 }

/-- A 32-bit little-endian reader state with everything empty; witnesses and
counterexamples below override the fields they need. -/
def baseSAS : SAS7BDAT :=
  { ColumnFormats := [], TrimStrings := false, ConvertDates := false,
    FactorizeStrings := false, NoAlignCorrection := false, U64 := false,
    ByteOrder := .littleEndian, Compression := [], TextDecoder := none,
    rowCount := 0, columnTypes := [], columnLabels := [], columnNames := [],
    buf := [], file := ⟨[], 0⟩, cachedPage := none, currentPageType := 0,
    currentPageBlockCount := 0, currentPageSubheadersCount := 0,
    currentRowInFileIndex := 0, currentRowOnPageIndex := 0,
    currentPageDataSubheaderPointers := [], stringchunk := [], bytechunk := [],
    currentRowInChunkIndex := 0, columnNamesStrings := [],
    columnDataOffsets := [], columnDataLengths := [], columns := [],
    properties := baseProps, stringPool := [], stringPoolR := [] }

/-- A state with one string column holding one decoded row, for witnesses. -/
def sasStr1 : SAS7BDAT :=
  { baseSAS with
    columnTypes := [SASStringType], columnNames := [[]],
    stringchunk := [[0]], currentRowInChunkIndex := 1,
    properties := { baseProps with columnCount := 1 },
    stringPool := [(0, [0x41])], stringPoolR := [([0x41], 0)] }

/-- A state holding one decoded row (all-zero bytes) of a single numeric
column whose SAS format is `"DATE"`, with `ConvertDates` disabled. -/
def sasDateNoConvert : SAS7BDAT :=
  { baseSAS with
    ConvertDates := false,
    columnTypes := [SASNumericType], columnNames := [[]],
    ColumnFormats := [fmtDATE],
    bytechunk := [List.replicate 8 0], currentRowInChunkIndex := 1,
    properties := { baseProps with columnCount := 1 } }

/-- A reader positioned on a data page holding exactly one 2-byte row
(`"AB"`) of a single string column; the file holds one row in total and has
no further pages. -/
def sasOneStringRow : SAS7BDAT :=
  { baseSAS with
    rowCount := 1,
    columnTypes := [SASStringType],
    columnNames := [[]],
    columnDataOffsets := [0],
    columnDataLengths := [2],
    columns := [{ colId := 0, name := [], label := [], format := [],
                  ctype := SASStringType, length := 2 }],
    cachedPage := some (List.replicate 24 0 ++ [0x41, 0x42]),
    currentPageType := 256,
    currentPageBlockCount := 1,
    properties := { baseProps with
                    columnCount := 1
                    rowLength := 2
                    pageLength := 26 } }

/-- A single numeric column of data length 3, for the C5 witness. -/
def colNum3 : Column :=
  { colId := 0, name := [], label := [], format := [],
    ctype := SASNumericType, length := 3 }

/-- A state with one numeric column of width 3 and one zeroed 8-byte slot. -/
def sasNum3 : SAS7BDAT :=
  { baseSAS with
    columnDataLengths := [3], columnDataOffsets := [0],
    columns := [colNum3], bytechunk := [List.replicate 8 0] }

/-! # Theorems -/

/-! ## C6: RLE opcode semantics -/

section RLE

lemma rleStep_copy80 (res : List UInt8) (b : UInt8) (c : Nat)
    (lits rest : List UInt8) (hb : b &&& 0xF0 = 0x80)
    (hc : (b &&& 0x0F).toNat = c) (hlen : lits.length = c + 1) :
    rleStep res b (lits ++ rest) = .ok (res ++ lits, rest) := by
  subst hc
  simp only [rleStep, hb]
  rw [if_neg (by decide), if_neg (by decide), if_neg (by decide),
    if_neg (by decide), if_pos trivial,
    if_pos (by rw [List.length_append]; omega)]
  rw [← hlen, List.take_left, List.drop_left]

lemma rleStep_copy90 (res : List UInt8) (b : UInt8) (c : Nat)
    (lits rest : List UInt8) (hb : b &&& 0xF0 = 0x90)
    (hc : (b &&& 0x0F).toNat = c) (hlen : lits.length = c + 17) :
    rleStep res b (lits ++ rest) = .ok (res ++ lits, rest) := by
  subst hc
  simp only [rleStep, hb]
  rw [if_neg (by decide), if_neg (by decide), if_neg (by decide),
    if_neg (by decide), if_neg (by decide), if_pos trivial,
    if_pos (by rw [List.length_append]; omega)]
  rw [← hlen, List.take_left, List.drop_left]

lemma rleStep_copyA0 (res : List UInt8) (b : UInt8) (c : Nat)
    (lits rest : List UInt8) (hb : b &&& 0xF0 = 0xA0)
    (hc : (b &&& 0x0F).toNat = c) (hlen : lits.length = c + 33) :
    rleStep res b (lits ++ rest) = .ok (res ++ lits, rest) := by
  subst hc
  simp only [rleStep, hb]
  rw [if_neg (by decide), if_neg (by decide), if_neg (by decide),
    if_neg (by decide), if_neg (by decide), if_neg (by decide), if_pos trivial,
    if_pos (by rw [List.length_append]; omega)]
  rw [← hlen, List.take_left, List.drop_left]

lemma rleStep_copyB0 (res : List UInt8) (b : UInt8) (c : Nat)
    (lits rest : List UInt8) (hb : b &&& 0xF0 = 0xB0)
    (hc : (b &&& 0x0F).toNat = c) (hlen : lits.length = c + 49) :
    rleStep res b (lits ++ rest) = .ok (res ++ lits, rest) := by
  subst hc
  simp only [rleStep, hb]
  rw [if_neg (by decide), if_neg (by decide), if_neg (by decide),
    if_neg (by decide), if_neg (by decide), if_neg (by decide),
    if_neg (by decide), if_pos trivial,
    if_pos (by rw [List.length_append]; omega)]
  rw [← hlen, List.take_left, List.drop_left]

lemma rleStep_repeatC0 (res : List UInt8) (b x : UInt8) (c : Nat)
    (rest1 : List UInt8) (hb : b &&& 0xF0 = 0xC0)
    (hc : (b &&& 0x0F).toNat = c) :
    rleStep res b (x :: rest1) = .ok (res ++ List.replicate (c + 3) x, rest1) := by
  subst hc
  simp only [rleStep, hb]
  rw [if_neg (by decide), if_neg (by decide), if_neg (by decide),
    if_neg (by decide), if_neg (by decide), if_neg (by decide),
    if_neg (by decide), if_neg (by decide), if_pos trivial]

lemma rleStep_repeat40 (res : List UInt8) (b n0 x : UInt8) (c : Nat)
    (rest1 : List UInt8) (hb : b &&& 0xF0 = 0x40)
    (hc : (b &&& 0x0F).toNat = c) :
    rleStep res b (n0 :: x :: rest1) =
      .ok (res ++ List.replicate (c * 16 + n0.toNat) x, rest1) := by
  subst hc
  simp only [rleStep, hb]
  rw [if_neg (by decide), if_pos trivial]

lemma rleStep_fillD0 (res : List UInt8) (b : UInt8) (c : Nat)
    (rest : List UInt8) (hb : b &&& 0xF0 = 0xD0)
    (hc : (b &&& 0x0F).toNat = c) :
    rleStep res b rest = .ok (res ++ List.replicate (c + 2) 0x40, rest) := by
  subst hc
  simp only [rleStep, hb]
  rw [if_neg (by decide), if_neg (by decide), if_neg (by decide),
    if_neg (by decide), if_neg (by decide), if_neg (by decide),
    if_neg (by decide), if_neg (by decide), if_neg (by decide), if_pos trivial]

lemma rleStep_fillE0 (res : List UInt8) (b : UInt8) (c : Nat)
    (rest : List UInt8) (hb : b &&& 0xF0 = 0xE0)
    (hc : (b &&& 0x0F).toNat = c) :
    rleStep res b rest = .ok (res ++ List.replicate (c + 2) 0x20, rest) := by
  subst hc
  simp only [rleStep, hb]
  rw [if_neg (by decide), if_neg (by decide), if_neg (by decide),
    if_neg (by decide), if_neg (by decide), if_neg (by decide),
    if_neg (by decide), if_neg (by decide), if_neg (by decide),
    if_neg (by decide), if_pos trivial]

lemma rleStep_fillF0 (res : List UInt8) (b : UInt8) (c : Nat)
    (rest : List UInt8) (hb : b &&& 0xF0 = 0xF0)
    (hc : (b &&& 0x0F).toNat = c) :
    rleStep res b rest = .ok (res ++ List.replicate (c + 2) 0x00, rest) := by
  subst hc
  simp only [rleStep, hb]
  rw [if_neg (by decide), if_neg (by decide), if_neg (by decide),
    if_neg (by decide), if_neg (by decide), if_neg (by decide),
    if_neg (by decide), if_neg (by decide), if_neg (by decide),
    if_neg (by decide), if_neg (by decide), if_pos trivial]

/-- One loop iteration of `rle_decompress`, given the step's outcome. -/
lemma rleLoop_cons (fuel : Nat) (res : List UInt8) (b : UInt8)
    (rest res' inbuff' : List UInt8)
    (h : rleStep res b rest = .ok (res', inbuff')) :
    rleLoop (fuel + 1) res (b :: rest) = rleLoop fuel res' inbuff' := by
  simp only [rleLoop, h]

/-- C6: RLE opcode semantics are byte-exact.  For every state of the
`rle_decompress` loop (any accumulated output `res`, any fuel) a control
byte `b` with low nibble `c` behaves as follows: high nibble
0x80/0x90/0xA0/0xB0 copies exactly `c+1`/`c+17`/`c+33`/`c+49` literal bytes
from the input to the output; 0xC0 emits `c+3` copies of the next input
byte; 0x40 repeats the second operand byte `c*16 + inbuf[0]` times (where
`inbuf[0]` is the first operand byte); and 0xD0/0xE0/0xF0 emit `c+2` copies
of 0x40/0x20/0x00 respectively, consuming no operand. -/
theorem rle_opcode_semantics :
    (∀ (fuel : Nat) (res : List UInt8) (b : UInt8) (c : Nat) (lits rest : List UInt8),
      b &&& 0xF0 = 0x80 → (b &&& 0x0F).toNat = c → lits.length = c + 1 →
      rleLoop (fuel + 1) res (b :: (lits ++ rest)) = rleLoop fuel (res ++ lits) rest) ∧
    (∀ (fuel : Nat) (res : List UInt8) (b : UInt8) (c : Nat) (lits rest : List UInt8),
      b &&& 0xF0 = 0x90 → (b &&& 0x0F).toNat = c → lits.length = c + 17 →
      rleLoop (fuel + 1) res (b :: (lits ++ rest)) = rleLoop fuel (res ++ lits) rest) ∧
    (∀ (fuel : Nat) (res : List UInt8) (b : UInt8) (c : Nat) (lits rest : List UInt8),
      b &&& 0xF0 = 0xA0 → (b &&& 0x0F).toNat = c → lits.length = c + 33 →
      rleLoop (fuel + 1) res (b :: (lits ++ rest)) = rleLoop fuel (res ++ lits) rest) ∧
    (∀ (fuel : Nat) (res : List UInt8) (b : UInt8) (c : Nat) (lits rest : List UInt8),
      b &&& 0xF0 = 0xB0 → (b &&& 0x0F).toNat = c → lits.length = c + 49 →
      rleLoop (fuel + 1) res (b :: (lits ++ rest)) = rleLoop fuel (res ++ lits) rest) ∧
    (∀ (fuel : Nat) (res : List UInt8) (b x : UInt8) (c : Nat) (rest1 : List UInt8),
      b &&& 0xF0 = 0xC0 → (b &&& 0x0F).toNat = c →
      rleLoop (fuel + 1) res (b :: x :: rest1) =
        rleLoop fuel (res ++ List.replicate (c + 3) x) rest1) ∧
    (∀ (fuel : Nat) (res : List UInt8) (b n0 x : UInt8) (c : Nat) (rest1 : List UInt8),
      b &&& 0xF0 = 0x40 → (b &&& 0x0F).toNat = c →
      rleLoop (fuel + 1) res (b :: n0 :: x :: rest1) =
        rleLoop fuel (res ++ List.replicate (c * 16 + n0.toNat) x) rest1) ∧
    (∀ (fuel : Nat) (res : List UInt8) (b : UInt8) (c : Nat) (rest : List UInt8),
      b &&& 0xF0 = 0xD0 → (b &&& 0x0F).toNat = c →
      rleLoop (fuel + 1) res (b :: rest) =
        rleLoop fuel (res ++ List.replicate (c + 2) 0x40) rest) ∧
    (∀ (fuel : Nat) (res : List UInt8) (b : UInt8) (c : Nat) (rest : List UInt8),
      b &&& 0xF0 = 0xE0 → (b &&& 0x0F).toNat = c →
      rleLoop (fuel + 1) res (b :: rest) =
        rleLoop fuel (res ++ List.replicate (c + 2) 0x20) rest) ∧
    (∀ (fuel : Nat) (res : List UInt8) (b : UInt8) (c : Nat) (rest : List UInt8),
      b &&& 0xF0 = 0xF0 → (b &&& 0x0F).toNat = c →
      rleLoop (fuel + 1) res (b :: rest) =
        rleLoop fuel (res ++ List.replicate (c + 2) 0x00) rest) := by
  refine ⟨?_, ?_, ?_, ?_, ?_, ?_, ?_, ?_, ?_⟩
  · intro fuel res b c lits rest hb hc hlen
    exact rleLoop_cons fuel res b (lits ++ rest) _ _ (rleStep_copy80 res b c lits rest hb hc hlen)
  · intro fuel res b c lits rest hb hc hlen
    exact rleLoop_cons fuel res b (lits ++ rest) _ _ (rleStep_copy90 res b c lits rest hb hc hlen)
  · intro fuel res b c lits rest hb hc hlen
    exact rleLoop_cons fuel res b (lits ++ rest) _ _ (rleStep_copyA0 res b c lits rest hb hc hlen)
  · intro fuel res b c lits rest hb hc hlen
    exact rleLoop_cons fuel res b (lits ++ rest) _ _ (rleStep_copyB0 res b c lits rest hb hc hlen)
  · intro fuel res b x c rest1 hb hc
    exact rleLoop_cons fuel res b (x :: rest1) _ _ (rleStep_repeatC0 res b x c rest1 hb hc)
  · intro fuel res b n0 x c rest1 hb hc
    exact rleLoop_cons fuel res b (n0 :: x :: rest1) _ _ (rleStep_repeat40 res b n0 x c rest1 hb hc)
  · intro fuel res b c rest hb hc
    exact rleLoop_cons fuel res b rest _ _ (rleStep_fillD0 res b c rest hb hc)
  · intro fuel res b c rest hb hc
    exact rleLoop_cons fuel res b rest _ _ (rleStep_fillE0 res b c rest hb hc)
  · intro fuel res b c rest hb hc
    exact rleLoop_cons fuel res b rest _ _ (rleStep_fillF0 res b c rest hb hc)

/-- Witness for C6: the theorem applied at concrete inputs (a 0x82 copy of
three literals, a 0x41 repeat, and a 0xD5 fill). -/
theorem rle_opcode_semantics_witness :
    rleLoop 1 [] ((0x82 : UInt8) :: ([1, 2, 3] ++ [])) =
      rleLoop 0 ([] ++ [1, 2, 3]) [] ∧
    rleLoop 1 [] ((0x41 : UInt8) :: (0x02 : UInt8) :: (0x09 : UInt8) :: []) =
      rleLoop 0 ([] ++ List.replicate 18 0x09) [] ∧
    rleLoop 1 [] ((0xD5 : UInt8) :: []) =
      rleLoop 0 ([] ++ List.replicate 7 0x40) [] := by
  refine ⟨?_, ?_, ?_⟩
  · exact rle_opcode_semantics.1 0 [] 0x82 2 [1, 2, 3] [] (by decide) (by decide) (by decide)
  · exact rle_opcode_semantics.2.2.2.2.2.1 0 [] 0x41 0x02 0x09 1 [] (by decide) (by decide)
  · exact rle_opcode_semantics.2.2.2.2.2.2.1 0 [] 0xD5 5 [] (by decide) (by decide)

end RLE

/-! ## C10 and C2: RDC decompression -/

section RDC

/-- Any error produced by the command dispatch is a modelled runtime panic:
in particular the `"unknown RDC command"` branch is unreachable, because
`cmd = (b >> 4) & 0x0F ≤ 15` and every value in `[0, 15]` is handled. -/
lemma rdcCommand_error_panic (result_length : Int) (inbuff : List UInt8)
    (bits mask : Nat) (out : List UInt8) (pos : Nat) (e : ReadError)
    (h : rdcCommand result_length inbuff bits mask out pos = .error e) :
    ∃ m, e = .goPanic m := by
  unfold rdcCommand at h
  by_cases hpos : pos < inbuff.length
  case neg =>
    rw [if_neg hpos] at h
    simp only [Except.error.injEq] at h
    exact ⟨_, h.symm⟩
  case pos =>
    rw [if_pos hpos] at h
    simp only [] at h
    set cmd := ((inbuff.getD pos 0).toNat >>> 4) &&& 0x0F with hcmd
    have hle : cmd ≤ 15 := by rw [hcmd]; exact Nat.and_le_right
    repeat' split at h
    all_goals try exact Except.noConfusion h
    all_goals try exact ⟨_, (Except.error.inj h).symm⟩
    omega

/-- Any error from one full loop iteration is a modelled panic. -/
lemma rdcStep_error_panic (result_length : Int) (inbuff : List UInt8)
    (bits mask : Nat) (out : List UInt8) (pos : Nat) (e : ReadError)
    (h : rdcStep result_length inbuff bits mask out pos = .error e) :
    ∃ m, e = .goPanic m := by
  unfold rdcStep at h
  simp only [] at h
  repeat' split at h
  all_goals try exact Except.noConfusion h
  all_goals try exact ⟨_, (Except.error.inj h).symm⟩
  all_goals exact rdcCommand_error_panic _ _ _ _ _ _ _ h

/-- Any error from the `rdc_decompress` loop is a modelled panic. -/
lemma rdcLoop_error_panic (result_length : Int) (inbuff : List UInt8) :
    ∀ (fuel bits mask : Nat) (out : List UInt8) (pos : Nat) (e : ReadError),
      rdcLoop result_length inbuff fuel bits mask out pos = .error e →
      ∃ m, e = .goPanic m := by
  intro fuel
  induction fuel with
  | zero =>
    intro bits mask out pos e h
    unfold rdcLoop at h
    split at h
    · exact ⟨_, (Except.error.inj h).symm⟩
    · exact Except.noConfusion h
  | succ n ih =>
    intro bits mask out pos e h
    unfold rdcLoop at h
    split at h
    · simp only [] at h
      split at h
      · rename_i e' heq
        obtain ⟨m, hm⟩ := rdcStep_error_panic _ _ _ _ _ _ _ heq
        exact ⟨m, by rw [← Except.error.inj h, hm]⟩
      · exact ih _ _ _ _ _ h
    · exact Except.noConfusion h

/-- C10: the `"unknown RDC command"` branch of `rdc_decompress` is
unreachable — the command value `(b >> 4) & 0x0F` lies in `[0, 15]` and
every such value is handled — so whenever `rdc_decompress` returns, its
error value is nil: the only modelled error outcomes are `goPanic`s, which
stand for Go runtime panics (index out of range on truncated input), not
returned errors. -/
theorem rdc_unknown_command_unreachable (result_length : Int)
    (inbuff : List UInt8) (e : ReadError)
    (h : rdc_decompress result_length inbuff = .error e) :
    ∃ m, e = .goPanic m := by
  unfold rdc_decompress at h
  split at h
  · exact ⟨_, (Except.error.inj h).symm⟩
  · exact rdcLoop_error_panic _ _ _ _ _ _ _ _ h

/-- Witness for C10: a truncated input whose command byte announces a
short-pattern command with no operand byte; the run ends in a modelled
panic, never in the unknown-command error. -/
theorem rdc_unknown_command_unreachable_witness :
    ∃ m, ReadError.goPanic "index out of range" = ReadError.goPanic m :=
  rdc_unknown_command_unreachable 5 [0x80, 0x00, 0x35]
    (ReadError.goPanic "index out of range") (by decide)

/-- C2 evaluation: on a concrete RDC stream whose short-pattern command has
offset 3 and count 5 (count exceeds offset, so the copied region overlaps
the write position), `rdc_decompress` emits the two overlapping positions as
zero bytes (Go's slice-plus-append reads the not-yet-written, zero-filled
region of the output buffer), whereas the specification's byte-by-byte copy
reproduces the repeating pattern. -/
theorem rdc_overlap_not_bytewise :
    rdc_decompress 8 [0x10, 0x00, 1, 2, 3, 0x50, 0x00] =
      .ok [1, 2, 3, 1, 2, 3, 0, 0] ∧
    rdcBackRefSpec [1, 2, 3] 3 5 = [1, 2, 3, 1, 2, 3, 1, 2] := by
  decide

end RDC

/-! ## C4: the mix-page row offset -/

section MixPage

/-- The mix-page branch of the `readline` loop, with the row offset written
as the specification states it: base + i·rowLength + alignCorrection, where
base = pageBitOffset + 8 + subheadersCount·subheaderPointerLength,
alignCorrection = base mod 8 (mathematical mod), suppressed entirely when
`NoAlignCorrection` is set. -/
lemma readlineLoop_mix (bo sphl : Int) (fuel : Nat) (sas : SAS7BDAT)
    (htype : sas.currentPageType = 512 ∨ sas.currentPageType = 640)
    (hbo : 0 ≤ bo) (hsc : 0 ≤ sas.currentPageSubheadersCount) (hsl : 0 ≤ sphl) :
    readlineLoop bo sphl (fuel + 1) sas =
      (let base := bo + 8 + sas.currentPageSubheadersCount * sphl
      let alignCorrection := if sas.NoAlignCorrection then 0 else base % 8
      let offset := base + sas.currentRowOnPageIndex * sas.properties.rowLength +
        alignCorrection
      match processByteArrayWithData sas offset sas.properties.rowLength with
      | (s, some e) => (s, .error e)
      | (s, none) =>
        if s.currentRowOnPageIndex = goMin s.rowCount s.properties.mixPageRowCount then
          match readNextPage s with
          | (s, .error e) => (s, .error e)
          | (s, .ok true) => (s, .ok true)
          | (s, .ok false) => ({ s with currentRowOnPageIndex := 0 }, .ok false)
        else (s, .ok false)) := by
  have h0 : ¬(sas.currentPageType = page_meta_type) := by
    rcases htype with h | h <;> simp [h, page_meta_type]
  have hmix : isPageMixType sas.currentPageType = true := by
    rcases htype with h | h <;> simp [isPageMixType, h]
  have hbase : 0 ≤ bo + 8 + sas.currentPageSubheadersCount * sphl := by
    have := mul_nonneg hsc hsl
    omega
  unfold readlineLoop
  rw [if_neg h0, if_pos hmix]
  simp only [goMod, subheader_pointers_offset]
  rw [Int.tmod_eq_emod hbase (by decide)]

/-- C4: on a mix page (current page type 512 or 640), `readline` decodes the
current row `i = currentRowOnPageIndex` by handing
`processByteArrayWithData` the byte offset

  pageBitOffset + 8 + subheadersCount·subheaderPointerLength
    + i·rowLength + alignCorrection,

where `alignCorrection = (pageBitOffset + 8 +
subheadersCount·subheaderPointerLength) mod 8`, and `alignCorrection = 0`
when the `NoAlignCorrection` flag is set. -/
theorem mix_page_row_offset (sas : SAS7BDAT) (page : List UInt8)
    (hpage : sas.cachedPage = some page)
    (htype : sas.currentPageType = 512 ∨ sas.currentPageType = 640)
    (hbo : 0 ≤ sas.properties.pageBitOffset)
    (hsc : 0 ≤ sas.currentPageSubheadersCount)
    (hsl : 0 ≤ sas.properties.subheaderPointerLength) :
    readline sas =
      (let base := sas.properties.pageBitOffset + 8 +
        sas.currentPageSubheadersCount * sas.properties.subheaderPointerLength
      let alignCorrection := if sas.NoAlignCorrection then 0 else base % 8
      let offset := base + sas.currentRowOnPageIndex * sas.properties.rowLength +
        alignCorrection
      match processByteArrayWithData sas offset sas.properties.rowLength with
      | (s, some e) => (s, .error e)
      | (s, none) =>
        if s.currentRowOnPageIndex = goMin s.rowCount s.properties.mixPageRowCount then
          match readNextPage s with
          | (s, .error e) => (s, .error e)
          | (s, .ok true) => (s, .ok true)
          | (s, .ok false) => ({ s with currentRowOnPageIndex := 0 }, .ok false)
        else (s, .ok false)) := by
  have h := readlineLoop_mix sas.properties.pageBitOffset
    sas.properties.subheaderPointerLength (sas.file.data.length + 1) sas
    htype hbo hsc hsl
  unfold readline
  rw [hpage]
  exact h

/-- Witness for C4: a concrete state sitting on a mix page. -/
theorem mix_page_row_offset_witness :
    (let sas : SAS7BDAT :=
      { baseSAS with cachedPage := some [], currentPageType := 512,
                     currentPageSubheadersCount := 3 }
    readline sas =
      (let base := sas.properties.pageBitOffset + 8 +
        sas.currentPageSubheadersCount * sas.properties.subheaderPointerLength
      let alignCorrection := if sas.NoAlignCorrection then 0 else base % 8
      let offset := base + sas.currentRowOnPageIndex * sas.properties.rowLength +
        alignCorrection
      match processByteArrayWithData sas offset sas.properties.rowLength with
      | (s, some e) => (s, .error e)
      | (s, none) =>
        if s.currentRowOnPageIndex = goMin s.rowCount s.properties.mixPageRowCount then
          match readNextPage s with
          | (s, .error e) => (s, .error e)
          | (s, .ok true) => (s, .ok true)
          | (s, .ok false) => ({ s with currentRowOnPageIndex := 0 }, .ok false)
        else (s, .ok false))) :=
  mix_page_row_offset _ [] rfl (Or.inl rfl) (by decide) (by decide) (by decide)

end MixPage

/-! ## C8: `Read` after end-of-stream -/

section ReadEOS

/-- C8: once all rows are consumed (`currentRowInFileIndex ≥ rowCount`),
`Read(k)` returns `(nil, io.EOF)` for every `k`, and the state — including
the underlying byte source and its position — is returned unchanged, so no
further reads of the byte source are performed.  (That no partially
populated batch can accompany an error is structural in both the source and
the model: every error site of `Read` returns `nil` as the batch, which the
`Except`-valued result mirrors.) -/
theorem read_after_eos (sas : SAS7BDAT) (num_rows : Int)
    (h : sas.currentRowInFileIndex ≥ sas.rowCount) :
    Read sas num_rows = (sas, .error .eof) := by
  unfold Read
  simp only []
  rw [if_pos h]

/-- Witness for C8: the base state has `rowCount = 0` rows, all consumed. -/
theorem read_after_eos_witness : Read baseSAS 5 = (baseSAS, .error .eof) :=
  read_after_eos baseSAS 5 (by decide)

end ReadEOS

/-! ## C5: reconstruction of short numeric values -/

section NumericPad

lemma goSlice_length (s : List UInt8) (a b : Int) (t : List UInt8)
    (h : goSlice s a b = some t) : (t.length : Int) = b - a := by
  unfold goSlice at h
  split at h
  · rename_i hc
    obtain ⟨h1, h2, h3⟩ := hc
    injection h with h
    subst h
    simp only [List.length_take, List.length_drop]
    omega
  · exact Option.noConfusion h

/-- Writing `temp` (of length `L < 8`) at position `a + (8 - L)` of a buffer
whose 8-byte slot at `a` is zero yields the slot `0^(8-L) ++ temp`. -/
lemma setRange_slot_le (chunkj temp : List UInt8) (a L : Nat)
    (hL8 : L < 8) (htemp : temp.length = L) (hbound : a + 8 ≤ chunkj.length)
    (hzero : (chunkj.drop a).take 8 = List.replicate 8 0) :
    ((listSetRange chunkj (a + (8 - L)) temp).drop a).take 8 =
      List.replicate (8 - L) 0 ++ temp := by
  have hXlen : (chunkj.take (a + (8 - L))).length = a + (8 - L) := by
    rw [List.length_take]; omega
  have hP : (chunkj.take (a + (8 - L))).drop a = List.replicate (8 - L) 0 := by
    rw [List.drop_take]
    have h3 : a + (8 - L) - a = 8 - L := by omega
    rw [h3]
    have h4 : (chunkj.drop a).take (8 - L) = ((chunkj.drop a).take 8).take (8 - L) := by
      rw [List.take_take]
      congr 1
      omega
    rw [h4, hzero, List.take_replicate]
    congr 1
    omega
  unfold listSetRange
  rw [htemp]
  have h1 : a + (8 - L) + L = a + 8 := by omega
  rw [h1]
  rw [List.drop_append_eq_append_drop]
  rw [List.drop_append_eq_append_drop]
  have e1 : a - (chunkj.take (a + (8 - L))).length = 0 := by rw [hXlen]; omega
  have e2 : a - (chunkj.take (a + (8 - L)) ++ temp).length = 0 := by
    rw [List.length_append, hXlen]; omega
  rw [e1, e2, List.drop_zero, List.drop_zero, hP]
  rw [List.take_append_eq_append_take]
  have e3 : (List.replicate (8 - L) 0 ++ temp).length = 8 := by
    rw [List.length_append, List.length_replicate, htemp]; omega
  rw [e3, Nat.sub_self, List.take_zero, List.append_nil]
  exact List.take_of_length_le (by rw [e3])

/-- Writing `temp` (of length `L < 8`) at position `a` of a buffer whose
8-byte slot at `a` is zero yields the slot `temp ++ 0^(8-L)`. -/
lemma setRange_slot_be (chunkj temp : List UInt8) (a L : Nat)
    (hL8 : L < 8) (htemp : temp.length = L) (hbound : a + 8 ≤ chunkj.length)
    (hzero : (chunkj.drop a).take 8 = List.replicate 8 0) :
    ((listSetRange chunkj a temp).drop a).take 8 =
      temp ++ List.replicate (8 - L) 0 := by
  have hXlen : (chunkj.take a).length = a := by
    rw [List.length_take]; omega
  have hZ : (chunkj.drop (a + L)).take (8 - L) = List.replicate (8 - L) 0 := by
    have hdd : chunkj.drop (a + L) = (chunkj.drop a).drop L := by
      rw [List.drop_drop]
    rw [hdd, List.take_drop]
    have h3 : L + (8 - L) = 8 := by omega
    rw [h3, hzero, List.drop_replicate]
  unfold listSetRange
  rw [htemp]
  rw [List.drop_append_eq_append_drop]
  rw [List.drop_append_eq_append_drop]
  rw [List.drop_eq_nil_of_le (le_of_eq hXlen)]
  have e1 : a - (chunkj.take a).length = 0 := by rw [hXlen]; omega
  have e2 : a - (chunkj.take a ++ temp).length = 0 := by
    rw [List.length_append, hXlen]; omega
  rw [e1, e2, List.drop_zero, List.drop_zero, List.nil_append]
  rw [List.take_append_eq_append_take]
  rw [List.take_of_length_le (by rw [htemp]; omega : temp.length ≤ 8), htemp]
  rw [hZ]

/-- C5: for a numeric column `j` with `dataLength = L < 8`, the per-column
step of `processByteArrayWithData` reconstructs the 8-byte double for the
current row `r` by copying the raw `L` bytes `temp` into bytes `[8-L, 8)` of
the row's 8-byte slot when the file is little-endian, and into bytes
`[0, L)` when it is big-endian; the remaining bytes of the slot (zero from
the allocation of `bytechunk` at the start of `Read`) stay zero. -/
theorem numeric_column_padding (sas : SAS7BDAT) (source : List UInt8)
    (j : Nat) (L r : Nat) (start : Int) (temp : List UInt8) (col : Column)
    (chunkj : List UInt8)
    (hL : sas.columnDataLengths.get? j = some ((L : Nat) : Int))
    (hL0 : 0 < L) (hL8 : L < 8)
    (hstart : sas.columnDataOffsets.get? j = some start)
    (htemp : goSlice source start (start + ((L : Nat) : Int)) = some temp)
    (hcol : sas.columns.get? j = some col)
    (hct : col.ctype = SASNumericType)
    (hchunk : sas.bytechunk.get? j = some chunkj)
    (hr : sas.currentRowInChunkIndex = ((r : Nat) : Int))
    (hbound : 8 * r + 8 ≤ chunkj.length)
    (hzero : (chunkj.drop (8 * r)).take 8 = List.replicate 8 0) :
    ∃ chunk',
      processColumnOne sas source j =
        ({ sas with bytechunk := sas.bytechunk.set j chunk' }, .next) ∧
      (chunk'.drop (8 * r)).take 8 =
        (match sas.ByteOrder with
         | .littleEndian => List.replicate (8 - L) 0 ++ temp
         | .bigEndian => temp ++ List.replicate (8 - L) 0) := by
  have htlen : temp.length = L := by
    have := goSlice_length source start (start + ((L : Nat) : Int)) temp htemp
    omega
  unfold processColumnOne
  rw [hL]
  simp only []
  rw [if_neg (by rw [Int.natCast_eq_zero]; omega)]
  rw [hstart]
  simp only []
  rw [htemp]
  simp only []
  rw [hcol]
  simp only []
  rw [if_pos hct, hchunk]
  simp only [hr]
  cases hbo : sas.ByteOrder
  case littleEndian =>
    simp only []
    rw [if_pos (by constructor <;> [omega; omega])]
    have hidx : (8 * ((r : Nat) : Int) + (8 - ((L : Nat) : Int))).toNat =
        8 * r + (8 - L) := by omega
    rw [hidx]
    exact ⟨listSetRange chunkj (8 * r + (8 - L)) temp, rfl,
      setRange_slot_le chunkj temp (8 * r) L hL8 htlen hbound hzero⟩
  case bigEndian =>
    simp only []
    rw [if_pos (by constructor <;> [omega; omega])]
    have hidx : (8 * ((r : Nat) : Int)).toNat = 8 * r := by omega
    rw [hidx]
    exact ⟨listSetRange chunkj (8 * r) temp, rfl,
      setRange_slot_be chunkj temp (8 * r) L hL8 htlen hbound hzero⟩

/-- Witness for C5: processing the 3-byte value `AA BB CC` for a numeric
column on a little-endian file pads it into bytes `[5, 8)` of the slot. -/
theorem numeric_column_padding_witness :
    ∃ chunk',
      processColumnOne sasNum3 [0xAA, 0xBB, 0xCC] 0 =
        ({ sasNum3 with bytechunk := sasNum3.bytechunk.set 0 chunk' }, .next) ∧
      (chunk'.drop 0).take 8 =
        (match sasNum3.ByteOrder with
         | .littleEndian => List.replicate 5 0 ++ [0xAA, 0xBB, 0xCC]
         | .bigEndian => [0xAA, 0xBB, 0xCC] ++ List.replicate 5 0) :=
  numeric_column_padding sasNum3 [0xAA, 0xBB, 0xCC] 0 3 0 0
    [0xAA, 0xBB, 0xCC] colNum3 (List.replicate 8 0)
    (by decide) (by decide) (by decide) (by decide) (by decide) (by decide)
    (by decide) (by decide) (by decide) (by decide) (by decide)

end NumericPad

/-! ## C9: missing masks -/

section MissingMask

lemma chunkToSeriesOne_string_mask (sas : SAS7BDAT) (n j : Nat) (ser : Series)
    (hct : sas.columnTypes.get? j = some SASStringType)
    (h : chunkToSeriesOne sas n j = .ok ser) :
    ser.missing = List.replicate n false := by
  unfold chunkToSeriesOne at h
  repeat' split at h
  all_goals try exact Except.noConfusion h
  all_goals injection h with h
  all_goals try subst h
  all_goals simp_all [NewSeries, SASNumericType, SASStringType]

lemma chunkToSeriesOne_numeric_mask (sas : SAS7BDAT) (n j : Nat) (ser : Series)
    (chunkj : List UInt8)
    (hct : sas.columnTypes.get? j = some SASNumericType)
    (hchunk : sas.bytechunk.get? j = some chunkj)
    (h : chunkToSeriesOne sas n j = .ok ser) :
    ser.missing = (toF64List sas.ByteOrder (chunkj.take (8 * n))).map isNaN64 := by
  unfold chunkToSeriesOne at h
  repeat' split at h
  all_goals try exact Except.noConfusion h
  all_goals injection h with h
  all_goals try subst h
  all_goals simp_all [NewSeries, SASNumericType, SASStringType]

lemma chunkToSeriesLoop_length (sas : SAS7BDAT) (n : Nat) :
    ∀ (remaining j0 : Nat) (l : List Series),
      chunkToSeriesLoop sas n remaining j0 = .ok l → l.length = remaining := by
  intro remaining
  induction remaining with
  | zero =>
    intro j0 l h
    unfold chunkToSeriesLoop at h
    injection h with h
    subst h
    rfl
  | succ m ih =>
    intro j0 l h
    unfold chunkToSeriesLoop at h
    split at h
    · exact Except.noConfusion h
    · split at h
      · exact Except.noConfusion h
      · rename_i rest hrest
        injection h with h
        subst h
        simp [ih (j0 + 1) rest hrest]

lemma chunkToSeriesLoop_get (sas : SAS7BDAT) (n : Nat) :
    ∀ (remaining j0 : Nat) (l : List Series) (i : Nat),
      chunkToSeriesLoop sas n remaining j0 = .ok l → i < remaining →
      ∃ ser, chunkToSeriesOne sas n (j0 + i) = .ok ser ∧ l.get? i = some ser := by
  intro remaining
  induction remaining with
  | zero => intro j0 l i _ hi; omega
  | succ m ih =>
    intro j0 l i h hi
    unfold chunkToSeriesLoop at h
    split at h
    · exact Except.noConfusion h
    · rename_i ser0 hser0
      split at h
      · exact Except.noConfusion h
      · rename_i rest hrest
        injection h with h
        subst h
        cases i with
        | zero => exact ⟨ser0, by rw [Nat.add_zero]; exact hser0, rfl⟩
        | succ i =>
          obtain ⟨ser, h1, h2⟩ := ih (j0 + 1) rest i hrest (by omega)
          refine ⟨ser, ?_, h2⟩
          rw [show j0 + (i + 1) = j0 + 1 + i by omega]
          exact h1

/-- C9: in the batch `chunkToSeries` returns, the missing mask of every
string-typed column `j` is `replicate n false` — its length is the batch's
row count `n = currentRowInChunkIndex` and every entry is `false` — while
the mask of a numeric column `j` marks row `i` missing exactly when the
`float64` reconstructed from bytes `[8i, 8i+8)` of `bytechunk[j]` is an
IEEE 754 NaN. -/
theorem missing_mask_by_type (sas : SAS7BDAT) (rslt : List Series)
    (j : Nat) (ser : Series)
    (hok : chunkToSeries sas = .ok rslt) (hj : rslt.get? j = some ser) :
    (sas.columnTypes.get? j = some SASStringType →
      ser.missing = List.replicate sas.currentRowInChunkIndex.toNat false) ∧
    (∀ chunkj, sas.columnTypes.get? j = some SASNumericType →
      sas.bytechunk.get? j = some chunkj →
      ser.missing = (toF64List sas.ByteOrder
        (chunkj.take (8 * sas.currentRowInChunkIndex.toNat))).map isNaN64) := by
  unfold chunkToSeries at hok
  split at hok
  · exact Except.noConfusion hok
  · have hlen := chunkToSeriesLoop_length sas sas.currentRowInChunkIndex.toNat
      sas.properties.columnCount.toNat 0 rslt hok
    have hji : j < sas.properties.columnCount.toNat := by
      have : j < rslt.length := List.get?_eq_some.mp hj |>.1
      omega
    obtain ⟨ser', h1, h2⟩ := chunkToSeriesLoop_get sas
      sas.currentRowInChunkIndex.toNat sas.properties.columnCount.toNat 0 rslt
      j hok hji
    rw [hj] at h2
    injection h2 with h2
    subst h2
    rw [Nat.zero_add] at h1
    exact ⟨fun hct => chunkToSeriesOne_string_mask _ _ _ _ hct h1,
      fun chunkj hct hch => chunkToSeriesOne_numeric_mask _ _ _ _ chunkj hct hch h1⟩

/-- Witness for C9: a one-column string batch with one row; the theorem
gives its all-false mask of length 1. -/
theorem missing_mask_by_type_witness :
    (NewSeries ([] : GoStr)
      (.strs [[0x41]]) [false]).missing = List.replicate 1 false :=
  (missing_mask_by_type sasStr1
    [NewSeries [] (.strs [[0x41]]) [false]] 0
    (NewSeries [] (.strs [[0x41]]) [false])
    (by decide) (by decide)).1 (by decide)

end MissingMask

/-! ## C1: date conversion is not gated on `ConvertDates` for `"DATE"`

The condition in `chunkToSeries` reads

    if sas.ConvertDates && sas.ColumnFormats[j] == "MMDDYY" || sas.ColumnFormats[j] == "DATE" {

which Go parses as `(ConvertDates && format == "MMDDYY") || format == "DATE"`,
so a `"DATE"`-format column is converted to timestamps even when
`ConvertDates` is disabled. -/

section ConvertDates

/-- C1 evaluation: with `ConvertDates = false`, a numeric column whose SAS
format is `"DATE"` is still returned as timestamps (`SeriesData.times`),
not as `float64` values. -/
theorem date_converted_despite_flag_off :
    sasDateNoConvert.ConvertDates = false ∧
    chunkToSeries sasDateNoConvert =
      .ok [NewSeries [] (.times (toDate [0])) [false]] := by
  decide

end ConvertDates

/-! ## C3: the factorised/plain round trip fails on a short final batch

The factorised branch of `chunkToSeries` hands `NewSeries` the *whole*
allocated `stringchunk[j]` (of length `num_rows`), while the plain branch
resolves only the first `n = currentRowInChunkIndex` ids; when the file is
exhausted mid-batch (`n < num_rows`), the factorised series keeps
`num_rows - n` trailing zero ids. -/

section FactorizeRoundTrip

/-- C3 evaluation: reading `Read(2)` from a file holding a single one-row
string column.  With `FactorizeStrings` enabled the returned series holds
the ids `[0, 0]` (length 2, one row plus one stale zero id); mapping them
through `StringFactorMap` gives two strings; with the flag disabled the
same call returns one string (length 1).  The two sequences differ in
length, so the round trip of the claim fails for a short final batch. -/
theorem factorize_roundtrip_fails_on_short_batch :
    (Read { sasOneStringRow with FactorizeStrings := true } 2).2 =
      .ok [NewSeries [] (.uints [0, 0]) [false]] ∧
    (Read { sasOneStringRow with FactorizeStrings := false } 2).2 =
      .ok [NewSeries [] (.strs [[0x41, 0x42]]) [false]] ∧
    [0, 0].map (fun id =>
      ((StringFactorMap
        (Read { sasOneStringRow with FactorizeStrings := true } 2).1).lookup id).getD []) =
      [[0x41, 0x42], [0x41, 0x42]] ∧
    (NewSeries ([] : GoStr) (.uints [0, 0]) [false]).length = 2 ∧
    (NewSeries ([] : GoStr) (.strs [[0x41, 0x42]]) [false]).length = 1 := by
  decide

end FactorizeRoundTrip

/-! ## C7: string-pool lifecycle and id assignment -/

section StringPool

/-- Counterexample to C7 as stated ("the string pool is reset at the start
of *every* `Read(n)` call"): a call made after end-of-stream
(`currentRowInFileIndex ≥ rowCount`) returns before the reset, leaving the
previous pool in place. -/
theorem pool_not_reset_on_eof_call :
    (Read { baseSAS with stringPool := [(0, [0x41])] } 1).1.stringPool =
      [(0, [0x41])] ∧
    (Read { baseSAS with stringPool := [(0, [0x41])] } 1).2 = .error .eof := by
  decide

lemma lookupR_none_iff (i : Nat) (seen : List GoStr) (w : GoStr) :
    ((List.enumFrom i seen).map (fun p => (p.2, p.1))).lookup w = none ↔
      ¬(w ∈ seen) := by
  induction seen generalizing i with
  | nil => simp [List.enumFrom]
  | cons a l ih =>
    by_cases hw : w = a
    · subst hw
      simp [List.enumFrom, List.lookup]
    · have hba : (w == a) = false := beq_eq_false_iff_ne.mpr hw
      simp [List.enumFrom, List.lookup, hba, hw, ih (i + 1)]

lemma enum_snoc (seen : List GoStr) (w : GoStr) :
    (seen ++ [w]).enum = seen.enum ++ [(seen.length, w)] := by
  rw [List.enum_append]
  rfl

/-- `internString` on pools that enumerate the distinct strings seen so far
keeps them in that shape, adding an unseen string at the end with the next
consecutive id. -/
lemma internString_synced (seen : List GoStr) (w : GoStr) :
    (internString seen.enum (seen.enum.map (fun p => (p.2, p.1))) w).2 =
      ((if w ∈ seen then seen else seen ++ [w]).enum,
        (if w ∈ seen then seen else seen ++ [w]).enum.map (fun p => (p.2, p.1))) := by
  unfold internString
  by_cases hmem : w ∈ seen
  · have hns : ¬((seen.enum.map (fun p => (p.2, p.1))).lookup w = none) := by
      rw [show seen.enum = List.enumFrom 0 seen from rfl,
        lookupR_none_iff 0 seen w]
      simp [hmem]
    rcases hk : (seen.enum.map (fun p => (p.2, p.1))).lookup w with _ | k
    · exact absurd hk hns
    · simp [hk, hmem]
  · have hnone : (seen.enum.map (fun p => (p.2, p.1))).lookup w = none := by
      rw [show seen.enum = List.enumFrom 0 seen from rfl,
        lookupR_none_iff 0 seen w]
      exact hmem
    have hlen : seen.enum.length = seen.length := List.enum_length
    simp only [hnone]
    simp [enum_snoc, hlen, hmem]

lemma internFold_cons (pool : List (Nat × GoStr)) (poolR : List (GoStr × Nat))
    (w : GoStr) (ws : List GoStr) :
    internFold pool poolR (w :: ws) =
      internFold (internString pool poolR w).2.1
        (internString pool poolR w).2.2 ws := by
  rcases hstep : internString pool poolR w with ⟨k, pool', poolR'⟩
  simp only [internFold, hstep]

/-- The `internString` fold keeps the pools as the enumeration of the
distinct strings in first-appearance order. -/
lemma internFold_pools (ws : List GoStr) : ∀ seen : List GoStr,
    internFold seen.enum (seen.enum.map (fun p => (p.2, p.1))) ws =
      ((ws.foldl (fun acc w => if w ∈ acc then acc else acc ++ [w]) seen).enum,
        (ws.foldl (fun acc w => if w ∈ acc then acc else acc ++ [w]) seen).enum.map
          (fun p => (p.2, p.1))) := by
  induction ws with
  | nil => intro seen; rfl
  | cons w ws ih =>
    intro seen
    have hsync := internString_synced seen w
    have h1 : (internString seen.enum (seen.enum.map (fun p => (p.2, p.1))) w).2.1 =
        (if w ∈ seen then seen else seen ++ [w]).enum := by rw [hsync]
    have h2 : (internString seen.enum (seen.enum.map (fun p => (p.2, p.1))) w).2.2 =
        (if w ∈ seen then seen else seen ++ [w]).enum.map (fun p => (p.2, p.1)) := by
      rw [hsync]
    rw [internFold_cons, h1, h2, List.foldl_cons]
    by_cases hmem : w ∈ seen
    · rw [if_pos hmem]
      exact ih seen
    · rw [if_neg hmem]
      exact ih (seen ++ [w])

/-- `dedupFirst` only ever extends its accumulator. -/
lemma dedupFirst_extends (ws : List GoStr) : ∀ acc : List GoStr,
    ∃ extra, ws.foldl (fun acc w => if w ∈ acc then acc else acc ++ [w]) acc =
      acc ++ extra := by
  induction ws with
  | nil => intro acc; exact ⟨[], by simp⟩
  | cons w ws ih =>
    intro acc
    rw [List.foldl_cons]
    by_cases hmem : w ∈ acc
    · rw [if_pos hmem]
      exact ih acc
    · rw [if_neg hmem]
      obtain ⟨extra, hx⟩ := ih (acc ++ [w])
      exact ⟨[w] ++ extra, by rw [hx, List.append_assoc]⟩

/-- C7 (amended): the pool the decoder starts from is rebuilt whenever
`Read(n)` proceeds past its end-of-stream check — the incoming pools are
irrelevant, exactly as if they were replaced by empty pools — and the
interning step assigns ids consecutively from 0 in order of first
appearance of each distinct string: the final pool enumerates the distinct
strings in first-appearance order with ids 0, 1, 2, …, the first string
interned receives id 0, and `StringFactorMap`'s entry for id 0 is that
first string. -/
theorem pool_reset_and_consecutive_ids :
    (∀ (sas : SAS7BDAT) (n : Int) (p : List (Nat × GoStr)) (q : List (GoStr × Nat)),
      sas.currentRowInFileIndex < sas.rowCount →
      Read { sas with stringPool := p, stringPoolR := q } n =
        Read { sas with stringPool := [], stringPoolR := [] } n) ∧
    (∀ ws : List GoStr,
      (internFold [] [] ws).1 = (dedupFirst ws).enum) ∧
    (∀ (w : GoStr) (rest : List GoStr),
      (internIds [] [] (w :: rest)).head? = some 0 ∧
      ((internFold [] [] (w :: rest)).1).lookup 0 = some w) := by
  refine ⟨?_, ?_, ?_⟩
  · intro sas n p q h
    unfold Read
    have hc : ¬(sas.currentRowInFileIndex ≥ sas.rowCount) := by omega
    simp only [if_neg hc]
  · intro ws
    have h := internFold_pools ws []
    simp only [List.enum_nil, List.map_nil] at h
    rw [h]
    rfl
  · intro w rest
    constructor
    · rfl
    · have h := internFold_pools (w :: rest) []
      simp only [List.enum_nil, List.map_nil] at h
      rw [h]
      have hdc : List.foldl (fun acc w => if w ∈ acc then acc else acc ++ [w])
          [] (w :: rest) =
          List.foldl (fun acc w => if w ∈ acc then acc else acc ++ [w]) [w] rest := by
        simp
      obtain ⟨extra, hx⟩ := dedupFirst_extends rest [w]
      show (List.foldl (fun acc w => if w ∈ acc then acc else acc ++ [w])
          [] (w :: rest)).enum.lookup 0 = some w
      rw [hdc, hx]
      simp [List.enum_cons, List.lookup]

/-- Witness for C7: the incoming pool of a proceeding `Read` call is
irrelevant, and interning `["A", "B", "A"]` yields the pool
`[(0, "A"), (1, "B")]`. -/
theorem pool_reset_and_consecutive_ids_witness :
    Read { sasOneStringRow with
           stringPool := [(5, [0x58])], stringPoolR := [([0x58], 5)] } 1 =
      Read { sasOneStringRow with stringPool := [], stringPoolR := [] } 1 ∧
    (internFold [] [] [[0x41], [0x42], [0x41]]).1 =
      (dedupFirst [[0x41], [0x42], [0x41]]).enum := by
  constructor
  · exact pool_reset_and_consecutive_ids.1 sasOneStringRow 1
      [(5, [0x58])] [([0x58], 5)] (by decide)
  · exact pool_reset_and_consecutive_ids.2.1 [[0x41], [0x42], [0x41]]

end StringPool

end Datareader
